import Mathlib

/-!
# CrediVist scoring and loan-engine core: a verification development

Shallow embedding of the scoring and loan-recommendation core of the
CrediVist repository (`src/scoring_engine.py`, `src/loan_engine.py`,
`src/alternative_profiles.py`).  Python floats are modelled as rationals;
Python's `round` (banker's rounding, round-half-to-even) is modelled
exactly by `rhe`/`roundTo`; Python dicts with `.get` defaults are modelled
as structures of `Option` fields.
-/

namespace CrediVist

/-! ## Python rounding: round-half-to-even -/

/-- Python's `round(q)`: round to the nearest integer, ties to the even
integer (banker's rounding). -/
def rhe (q : ℚ) : ℤ :=
  if q - ⌊q⌋ < 1/2 then ⌊q⌋
  else if 1/2 < q - ⌊q⌋ then ⌊q⌋ + 1
  else if ⌊q⌋ % 2 = 0 then ⌊q⌋ else ⌊q⌋ + 1

/-- Python's `round(q, d)`: round to `d` decimal places. -/
def roundTo (d : ℕ) (q : ℚ) : ℚ := (rhe (q * 10 ^ d) : ℚ) / 10 ^ d

theorem rhe_of_lt {q : ℚ} (h : q - ⌊q⌋ < 1/2) : rhe q = ⌊q⌋ := by
  unfold rhe; rw [if_pos h]

theorem rhe_of_gt {q : ℚ} (h : 1/2 < q - ⌊q⌋) : rhe q = ⌊q⌋ + 1 := by
  unfold rhe; rw [if_neg (by linarith), if_pos h]

theorem rhe_of_tie {q : ℚ} (h : q - ⌊q⌋ = 1/2) :
    rhe q = if ⌊q⌋ % 2 = 0 then ⌊q⌋ else ⌊q⌋ + 1 := by
  unfold rhe; rw [if_neg (by rw [h]; exact lt_irrefl _), if_neg (by rw [h]; exact lt_irrefl _)]

theorem floor_le_rhe (q : ℚ) : ⌊q⌋ ≤ rhe q := by
  rcases lt_trichotomy (q - ⌊q⌋) (1/2) with h | h | h
  · rw [rhe_of_lt h]
  · rw [rhe_of_tie h]; split <;> omega
  · rw [rhe_of_gt h]; omega

theorem rhe_le_floor_add_one (q : ℚ) : rhe q ≤ ⌊q⌋ + 1 := by
  rcases lt_trichotomy (q - ⌊q⌋) (1/2) with h | h | h
  · rw [rhe_of_lt h]; omega
  · rw [rhe_of_tie h]; split <;> omega
  · rw [rhe_of_gt h]

theorem rhe_le (q : ℚ) : (rhe q : ℚ) ≤ q + 1/2 := by
  have hf := Int.floor_le q
  rcases lt_trichotomy (q - ⌊q⌋) (1/2) with h | h | h
  · rw [rhe_of_lt h]; linarith
  · rw [rhe_of_tie h]; split <;> push_cast <;> linarith
  · rw [rhe_of_gt h]; push_cast; linarith

theorem le_rhe (q : ℚ) : q - 1/2 ≤ (rhe q : ℚ) := by
  have hf' := Int.lt_floor_add_one q
  rcases lt_trichotomy (q - ⌊q⌋) (1/2) with h | h | h
  · rw [rhe_of_lt h]; linarith
  · rw [rhe_of_tie h]; split <;> push_cast <;> linarith
  · rw [rhe_of_gt h]; push_cast; linarith

theorem rhe_intCast (n : ℤ) : rhe (n : ℚ) = n := by
  have : ((n : ℚ) - ⌊(n : ℚ)⌋) < 1/2 := by
    rw [Int.floor_intCast]; norm_num
  rw [rhe_of_lt this, Int.floor_intCast]

theorem rhe_mono {x y : ℚ} (h : x ≤ y) : rhe x ≤ rhe y := by
  rcases lt_or_eq_of_le (Int.floor_mono h) with hf | hf
  · calc rhe x ≤ ⌊x⌋ + 1 := rhe_le_floor_add_one x
      _ ≤ ⌊y⌋ := by omega
      _ ≤ rhe y := floor_le_rhe y
  · have hxy : x - (⌊x⌋ : ℚ) ≤ y - (⌊y⌋ : ℚ) := by rw [hf]; push_cast [hf]; linarith
    rcases lt_trichotomy (x - ⌊x⌋) (1/2) with h1 | h1 | h1
    · rw [rhe_of_lt h1, hf]; exact floor_le_rhe y
    · rcases lt_trichotomy (y - ⌊y⌋) (1/2) with h2 | h2 | h2
      · linarith
      · rw [rhe_of_tie h1, rhe_of_tie h2, hf]
      · rw [rhe_of_tie h1, rhe_of_gt h2, hf]; split <;> omega
    · have h2 : 1/2 < y - ⌊y⌋ := lt_of_lt_of_le h1 hxy
      rw [rhe_of_gt h1, rhe_of_gt h2, hf]

theorem rhe_nonneg {q : ℚ} (h : 0 ≤ q) : 0 ≤ rhe q := by
  have := floor_le_rhe q
  have : (0 : ℤ) ≤ ⌊q⌋ := Int.floor_nonneg.mpr h
  omega

theorem roundTo_le (d : ℕ) (q : ℚ) : roundTo d q ≤ q + 1 / (2 * 10 ^ d) := by
  unfold roundTo
  rw [div_le_iff₀ (by positivity)]
  have h := rhe_le (q * 10 ^ d)
  have hp : (0:ℚ) < 10 ^ d := by positivity
  calc (rhe (q * 10 ^ d) : ℚ) ≤ q * 10 ^ d + 1/2 := h
    _ = (q + 1 / (2 * 10 ^ d)) * 10 ^ d := by field_simp; ring

theorem le_roundTo (d : ℕ) (q : ℚ) : q - 1 / (2 * 10 ^ d) ≤ roundTo d q := by
  unfold roundTo
  rw [le_div_iff₀ (by positivity)]
  have h := le_rhe (q * 10 ^ d)
  have hp : (0:ℚ) < 10 ^ d := by positivity
  calc (q - 1 / (2 * 10 ^ d)) * 10 ^ d = q * 10 ^ d - 1/2 := by field_simp; ring
    _ ≤ (rhe (q * 10 ^ d) : ℚ) := h

theorem roundTo_mono (d : ℕ) {x y : ℚ} (h : x ≤ y) : roundTo d x ≤ roundTo d y := by
  unfold roundTo
  have hp : (0:ℚ) < 10 ^ d := by positivity
  have h1 : rhe (x * 10 ^ d) ≤ rhe (y * 10 ^ d) :=
    rhe_mono (mul_le_mul_of_nonneg_right h hp.le)
  exact div_le_div_of_nonneg_right (by exact_mod_cast h1) hp.le

theorem roundTo_nonneg (d : ℕ) {q : ℚ} (h : 0 ≤ q) : 0 ≤ roundTo d q := by
  unfold roundTo
  have : (0:ℤ) ≤ rhe (q * 10 ^ d) := rhe_nonneg (by positivity)
  positivity

theorem roundTo_zero_intCast (n : ℤ) : roundTo 0 (n : ℚ) = n := by
  unfold roundTo
  simp [rhe_intCast]

theorem abs_roundTo_sub (d : ℕ) (q : ℚ) : |roundTo d q - q| ≤ 1 / (2 * 10 ^ d) := by
  rw [abs_sub_le_iff]
  constructor
  · have := roundTo_le d q; linarith
  · have := le_roundTo d q; linarith

/-- Evaluate `roundTo` on a concrete value rounding down. -/
theorem roundTo_eq_of_lt (d : ℕ) {q : ℚ} (k : ℤ) (h1 : (k:ℚ) ≤ q * 10 ^ d)
    (h2 : q * 10 ^ d < (k:ℚ) + 1/2) : roundTo d q = (k:ℚ) / 10 ^ d := by
  unfold roundTo
  have hf : ⌊q * 10 ^ d⌋ = k := Int.floor_eq_iff.mpr ⟨h1, by push_cast; linarith⟩
  rw [rhe_of_lt (by rw [hf]; linarith), hf]

/-- Evaluate `roundTo` on a concrete value rounding up. -/
theorem roundTo_eq_of_gt (d : ℕ) {q : ℚ} (k : ℤ) (h1 : (k:ℚ) + 1/2 < q * 10 ^ d)
    (h2 : q * 10 ^ d < (k:ℚ) + 1) : roundTo d q = ((k:ℚ) + 1) / 10 ^ d := by
  unfold roundTo
  have hf : ⌊q * 10 ^ d⌋ = k := Int.floor_eq_iff.mpr ⟨by linarith, by push_cast; linarith⟩
  rw [rhe_of_gt (by rw [hf]; linarith), hf]
  push_cast
  ring

/-- Evaluate `roundTo` on a concrete half-way value with odd floor:
banker's rounding rounds away to the even neighbour above. -/
theorem roundTo_eq_of_tie_odd (d : ℕ) {q : ℚ} (k : ℤ) (h1 : q * 10 ^ d = (k:ℚ) + 1/2)
    (hk : k % 2 = 1) : roundTo d q = ((k:ℚ) + 1) / 10 ^ d := by
  unfold roundTo
  have hf : ⌊q * 10 ^ d⌋ = k :=
    Int.floor_eq_iff.mpr ⟨by rw [h1]; linarith, by rw [h1]; push_cast; linarith⟩
  rw [rhe_of_tie (by rw [hf, h1]; ring), hf, if_neg (by omega)]
  push_cast
  ring

/-- `roundTo` fixes exact `d`-decimal values. -/
theorem roundTo_eq_self (d : ℕ) (m : ℤ) : roundTo d ((m:ℚ) / 10 ^ d) = (m:ℚ) / 10 ^ d := by
  unfold roundTo
  rw [div_mul_cancel₀ _ (by positivity : (10:ℚ) ^ d ≠ 0), rhe_intCast]

theorem roundTo_zero_le (q : ℚ) {b : ℤ} (h : q ≤ (b : ℚ)) : roundTo 0 q ≤ (b : ℚ) := by
  calc roundTo 0 q ≤ roundTo 0 (b : ℚ) := roundTo_mono 0 h
    _ = b := roundTo_zero_intCast b

theorem le_roundTo_zero (q : ℚ) {a : ℤ} (h : (a : ℚ) ≤ q) : (a : ℚ) ≤ roundTo 0 q := by
  calc (a : ℚ) = roundTo 0 (a : ℚ) := (roundTo_zero_intCast a).symm
    _ ≤ roundTo 0 q := roundTo_mono 0 h

/-! ## FinalScoreBlender (`scoring_engine.py`, `compute_final_score`) -/

/-- The clipped (pre-rounding) final score of `compute_final_score`:
`adjusted_100 = (base−300)/600·100`, multiplied by `(1 − risk)`, mapped back
to the 300–900 scale and clipped with `np.clip`. -/
def finalScoreRaw (base_score risk_probability : ℚ) : ℚ :=
  min (max (300 + ((base_score - 300) / (900 - 300) * 100) * (1 - risk_probability) / 100 * (900 - 300)) 300) 900

/-- `compute_final_score(...)["final_trust_score"]` = `round(final, 0)`. -/
def final_trust_score (base_score risk_probability : ℚ) : ℚ :=
  roundTo 0 (finalScoreRaw base_score risk_probability)

/-- The grade assigned by `compute_final_score` from the clipped final score. -/
def finalGrade (base_score risk_probability : ℚ) : String :=
  if 750 ≤ finalScoreRaw base_score risk_probability then "Excellent"
  else if 650 ≤ finalScoreRaw base_score risk_probability then "Good"
  else if 500 ≤ finalScoreRaw base_score risk_probability then "Fair"
  else if 400 ≤ finalScoreRaw base_score risk_probability then "Poor"
  else "Very Poor"

theorem finalScoreRaw_eq {base risk : ℚ} (hb1 : 300 ≤ base) (hb2 : base ≤ 900)
    (hr1 : 0 ≤ risk) (hr2 : risk ≤ 1) :
    finalScoreRaw base risk = 300 + (base - 300) * (1 - risk) := by
  unfold finalScoreRaw
  have hnn : 0 ≤ (base - 300) * (1 - risk) := mul_nonneg (by linarith) (by linarith)
  have hub : (base - 300) * (1 - risk) ≤ 600 := by nlinarith
  have hform : 300 + ((base - 300) / (900 - 300) * 100) * (1 - risk) / 100 * (900 - 300)
      = 300 + (base - 300) * (1 - risk) := by ring
  rw [hform, max_eq_left (by linarith), min_eq_left (by linarith)]

/-- C1 (amended): for base_score in [300,900] and risk probabilities in [0,1],
`final_trust_score` is non-increasing in risk_probability; at
risk_probability = 0 it equals base_score up to rounding
(`roundTo 0 base_score`); it never exceeds `roundTo 0 base_score`
(hence never exceeds base_score itself whenever base_score is a whole
number, as produced by `compute_base_score`); and it lies in [300,900]. -/
theorem c1_final_score_props (base r1 r2 : ℚ)
    (hb1 : 300 ≤ base) (hb2 : base ≤ 900)
    (h1 : 0 ≤ r1) (h12 : r1 ≤ r2) (h2 : r2 ≤ 1) :
    final_trust_score base r2 ≤ final_trust_score base r1 ∧
    final_trust_score base 0 = roundTo 0 base ∧
    final_trust_score base r2 ≤ roundTo 0 base ∧
    300 ≤ final_trust_score base r2 ∧ final_trust_score base r2 ≤ 900 := by
  have h1' : 0 ≤ r2 := le_trans h1 h12
  have h2' : r1 ≤ 1 := le_trans h12 h2
  have e1 := finalScoreRaw_eq hb1 hb2 h1 h2'
  have e2 := finalScoreRaw_eq hb1 hb2 h1' h2
  have e0 := finalScoreRaw_eq hb1 hb2 (le_refl (0:ℚ)) (by norm_num : (0:ℚ) ≤ 1)
  have hmono : finalScoreRaw base r2 ≤ finalScoreRaw base r1 := by
    rw [e1, e2]
    have : (base - 300) * (1 - r2) ≤ (base - 300) * (1 - r1) :=
      mul_le_mul_of_nonneg_left (by linarith) (by linarith)
    linarith
  have hle_base : finalScoreRaw base r2 ≤ base := by
    rw [e2]
    nlinarith
  have hlo : 300 ≤ finalScoreRaw base r2 := by
    rw [e2]
    nlinarith
  refine ⟨roundTo_mono 0 hmono, ?_, roundTo_mono 0 hle_base, ?_, ?_⟩
  · unfold final_trust_score
    rw [e0]
    norm_num
  · have := le_roundTo_zero (a := 300) (finalScoreRaw base r2) (by exact_mod_cast hlo)
    exact_mod_cast this
  · have h900 : finalScoreRaw base r2 ≤ ((900:ℤ):ℚ) := by push_cast; linarith
    have := roundTo_zero_le (b := 900) (finalScoreRaw base r2) h900
    exact_mod_cast this

/-- C1 counterexample: at base_score = 300.6 (a non-integer base) and
risk_probability = 1/1000 > 0, `final_trust_score` rounds up to 301, which
is strictly greater than base_score — the claim's unqualified
`final_trust_score ≤ base_score` for risk_probability > 0 fails. -/
theorem c1_counterexample :
    (0 : ℚ) < 1/1000 ∧ (300 ≤ (3006/10 : ℚ) ∧ (3006/10 : ℚ) ≤ 900) ∧
    final_trust_score (3006/10) (1/1000) = 301 ∧
    ¬ final_trust_score (3006/10) (1/1000) ≤ 3006/10 := by
  have hraw : finalScoreRaw (3006/10) (1/1000) = 300 + (3006/10 - 300) * (1 - 1/1000) :=
    finalScoreRaw_eq (by norm_num) (by norm_num) (by norm_num) (by norm_num)
  have hval : finalScoreRaw (3006/10) (1/1000) = 1502997/5000 := by rw [hraw]; norm_num
  have : final_trust_score (3006/10) (1/1000) = ((300:ℤ) + 1 : ℚ) / 10 ^ 0 := by
    unfold final_trust_score
    rw [hval]
    exact roundTo_eq_of_gt 0 300 (by norm_num) (by norm_num)
  refine ⟨by norm_num, ⟨by norm_num, by norm_num⟩, ?_, ?_⟩
  · rw [this]; norm_num
  · rw [this]; norm_num

/-- C1 witness: the amended theorem at base_score = 700, risks 0 ≤ 1/2. -/
theorem c1_witness :
    final_trust_score 700 (1/2) ≤ final_trust_score 700 0 ∧
    final_trust_score 700 0 = roundTo 0 700 ∧
    final_trust_score 700 (1/2) ≤ roundTo 0 700 ∧
    300 ≤ final_trust_score 700 (1/2) ∧ final_trust_score 700 (1/2) ≤ 900 :=
  c1_final_score_props 700 0 (1/2) (by norm_num) (by norm_num) (by norm_num)
    (by norm_num) (by norm_num)

/-! ## EMI / Amortization module (`loan_engine.py`) -/

/-- `calculate_emi(principal, annual_rate, tenure_months)`:
`EMI = P·r·(1+r)^n / ((1+r)^n − 1)` with `r = annual_rate/1200`, rounded to
2 decimals; `P/n` when the rate is ≤ 0; `0` when `P ≤ 0` or `n ≤ 0`. -/
def calculate_emi (principal annual_rate : ℚ) (tenure_months : ℕ) : ℚ :=
  if principal ≤ 0 ∨ tenure_months = 0 then 0
  else if annual_rate ≤ 0 then principal / tenure_months
  else
    let r := annual_rate / 1200
    roundTo 2 (principal * r * (1 + r) ^ tenure_months / ((1 + r) ^ tenure_months - 1))

/-- `calculate_total_interest`: `EMI × n − P`, rounded to 2 decimals. -/
def calculate_total_interest (principal annual_rate : ℚ) (tenure_months : ℕ) : ℚ :=
  roundTo 2 (calculate_emi principal annual_rate tenure_months * tenure_months - principal)

/-- `max_loan_from_emi(max_emi, annual_rate, tenure_months)`: reverse EMI,
`P = EMI·((1+r)^n − 1)/(r·(1+r)^n)`, rounded to 2 decimals; `EMI × n` when
the rate is ≤ 0; `0` when `EMI ≤ 0` or `n ≤ 0`. -/
def max_loan_from_emi (max_emi annual_rate : ℚ) (tenure_months : ℕ) : ℚ :=
  if max_emi ≤ 0 ∨ tenure_months = 0 then 0
  else if annual_rate ≤ 0 then max_emi * tenure_months
  else
    let r := annual_rate / 1200
    roundTo 2 (max_emi * ((1 + r) ^ tenure_months - 1) / (r * (1 + r) ^ tenure_months))

theorem one_le_pow_one_add {r : ℚ} (hr : 0 ≤ r) (n : ℕ) : 1 ≤ (1 + r) ^ n := by
  calc (1:ℚ) = 1 ^ n := (one_pow n).symm
    _ ≤ (1 + r) ^ n := pow_le_pow_left (by norm_num) (by linarith) n

theorem one_lt_pow_one_add {r : ℚ} (hr : 0 < r) {n : ℕ} (hn : n ≠ 0) :
    1 < (1 + r) ^ n := by
  calc (1:ℚ) = 1 ^ n := (one_pow n).symm
    _ < (1 + r) ^ n := by
        apply pow_lt_pow_left (by linarith) (by norm_num) hn

/-- C4: `calculate_emi` implements the standard amortizing-loan EMI formula
(to within the 2-decimal rounding, i.e. 1/200) for positive rates, divides
the principal evenly for rates ≤ 0, and on the concrete scenario
`calculate_emi(100000, 12.0, 12)` returns a value within 1 of 8884.88. -/
theorem c4_calculate_emi :
    (∀ (P rate : ℚ) (n : ℕ), 0 < P → 0 < n →
      (0 < rate →
        |calculate_emi P rate n -
          P * (rate/1200) * (1 + rate/1200) ^ n / ((1 + rate/1200) ^ n - 1)| ≤ 1/200) ∧
      (rate ≤ 0 → calculate_emi P rate n = P / n)) ∧
    |calculate_emi 100000 12 12 - 888488/100| ≤ 1 := by
  constructor
  · intro P rate n hP hn
    constructor
    · intro hrate
      simp only [calculate_emi]
      rw [if_neg (by push_neg; exact ⟨hP, hn.ne'⟩), if_neg (not_le.mpr hrate)]
      have := abs_roundTo_sub 2 (P * (rate/1200) * (1 + rate/1200) ^ n / ((1 + rate/1200) ^ n - 1))
      calc |roundTo 2 (P * (rate/1200) * (1 + rate/1200) ^ n / ((1 + rate/1200) ^ n - 1)) -
          P * (rate/1200) * (1 + rate/1200) ^ n / ((1 + rate/1200) ^ n - 1)| ≤ 1 / (2 * 10 ^ 2) := this
        _ = 1/200 := by norm_num
    · intro hrate
      simp only [calculate_emi]
      rw [if_neg (by push_neg; exact ⟨hP, hn.ne'⟩), if_pos hrate]
  · have hcon : calculate_emi 100000 12 12 = ((888487:ℤ) + 1 : ℚ) / 10 ^ 2 := by
      simp only [calculate_emi]
      rw [if_neg (by norm_num), if_neg (by norm_num)]
      exact roundTo_eq_of_gt 2 888487 (by norm_num) (by norm_num)
    rw [hcon]
    norm_num

/-- C4 witness: instantiating the universal part at concrete inputs. -/
theorem c4_witness :
    |calculate_emi 100000 12 12 - 888488/100| ≤ 1 ∧ calculate_emi 100000 0 12 = 100000 / 12 := by
  refine ⟨c4_calculate_emi.2, ?_⟩
  have h := (c4_calculate_emi.1 100000 0 12 (by norm_num) (by norm_num)).2 (by norm_num)
  rw [h]
  norm_num

/-- Key growth bound: `(1+r)^n − 1 ≤ n·r·(1+r)^n` for `r ≥ 0`. -/
theorem pow_sub_one_le (r : ℚ) (hr : 0 ≤ r) (n : ℕ) :
    (1 + r) ^ n - 1 ≤ n * r * (1 + r) ^ n := by
  induction n with
  | zero => simp
  | succ k ih =>
      have hpow : (1:ℚ) ≤ (1 + r) ^ k := one_le_pow_one_add hr k
      have hpow' : (1:ℚ) ≤ (1 + r) ^ (k+1) := one_le_pow_one_add hr (k+1)
      have h1r : (0:ℚ) < 1 + r := by linarith
      calc (1 + r) ^ (k+1) - 1 = ((1 + r) ^ k - 1) * (1 + r) + r := by ring
        _ ≤ (k * r * (1 + r) ^ k) * (1 + r) + r := by nlinarith
        _ = k * r * (1 + r) ^ (k+1) + r := by ring
        _ ≤ k * r * (1 + r) ^ (k+1) + r * (1 + r) ^ (k+1) := by nlinarith
        _ = (↑(k+1)) * r * (1 + r) ^ (k+1) := by push_cast; ring

/-- C5: the reverse-EMI computation inverts the EMI computation up to the
accumulated 2-decimal rounding error: for P > 0, rate ≥ 0 and n > 0 months,
`max_loan_from_emi(calculate_emi(P, rate, n), rate, n)` is within
`(n+1)/200` of P (each of the two roundings contributes at most `1/200`,
the first amplified by at most a factor `n`). -/
theorem c5_emi_round_trip (P rate : ℚ) (n : ℕ) (hP : 0 < P) (hrate : 0 ≤ rate)
    (hn : 0 < n) :
    |max_loan_from_emi (calculate_emi P rate n) rate n - P| ≤ ((n : ℚ) + 1) / 200 := by
  have hn200 : (0:ℚ) ≤ ((n : ℚ) + 1) / 200 := by positivity
  by_cases hr0 : rate ≤ 0
  · -- zero-rate branch: exact round trip
    have hemi : calculate_emi P rate n = P / n := by
      simp only [calculate_emi]
      rw [if_neg (by push_neg; exact ⟨hP, hn.ne'⟩), if_pos hr0]
    have hPn : (0:ℚ) < P / n := by
      have : (0:ℚ) < (n:ℚ) := by exact_mod_cast hn
      positivity
    have : max_loan_from_emi (P / n) rate n = P / n * n := by
      simp only [max_loan_from_emi]
      rw [if_neg (by push_neg; exact ⟨hPn, hn.ne'⟩), if_pos hr0]
    rw [hemi, this]
    have hne : ((n:ℚ)) ≠ 0 := by
      have : (0:ℚ) < (n:ℚ) := by exact_mod_cast hn
      exact ne_of_gt this
    rw [div_mul_cancel₀ _ hne]
    simpa using hn200
  · push_neg at hr0
    set r : ℚ := rate / 1200 with hr_def
    have hrpos : 0 < r := by positivity
    set x : ℚ := (1 + r) ^ n with hx_def
    have hx1 : 1 < x := one_lt_pow_one_add hrpos hn.ne'
    have hxpos : 0 < x := lt_trans one_pos hx1
    have hx1' : 0 < x - 1 := by linarith
    set e : ℚ := P * r * x / (x - 1) with he_def
    have hepos : 0 < e := by positivity
    have hemi : calculate_emi P rate n = roundTo 2 e := by
      simp only [calculate_emi]
      rw [if_neg (by push_neg; exact ⟨hP, hn.ne'⟩), if_neg (not_le.mpr hr0)]
    set E : ℚ := roundTo 2 e with hE_def
    have hEd : |E - e| ≤ 1/200 := by
      have := abs_roundTo_sub 2 e
      calc |E - e| ≤ 1 / (2 * 10 ^ 2) := this
        _ = 1/200 := by norm_num
    have hEnn : 0 ≤ E := roundTo_nonneg 2 hepos.le
    -- the reverse-EMI factor A
    set A : ℚ := (x - 1) / (r * x) with hA_def
    have hApos : 0 < A := by positivity
    have hAn : A ≤ (n : ℚ) := by
      rw [hA_def, div_le_iff₀ (by positivity)]
      have := pow_sub_one_le r hrpos.le n
      calc x - 1 ≤ (n : ℚ) * r * x := by rw [hx_def]; exact this
        _ = (n : ℚ) * (r * x) := by ring
    have heA : e * A = P := by
      rw [he_def, hA_def]
      field_simp
      ring
    rw [hemi]
    by_cases hE0 : E ≤ 0
    · -- rounded EMI collapsed to 0: the guard returns 0, still within bounds
      have hEz : E = 0 := le_antisymm hE0 hEnn
      have : max_loan_from_emi E rate n = 0 := by
        simp only [max_loan_from_emi]
        rw [if_pos (Or.inl hE0)]
      rw [this]
      have he_small : e ≤ 1/200 := by
        have := abs_le.mp hEd
        have h1 := this.1
        rw [hEz] at h1
        linarith
      have hPle : P ≤ (n : ℚ) / 200 := by
        calc P = e * A := heA.symm
          _ ≤ (1/200) * (n : ℚ) := mul_le_mul he_small hAn hApos.le (by norm_num)
          _ = (n : ℚ) / 200 := by ring
      rw [abs_sub_comm, abs_of_nonneg (by linarith)]
      have : ((n:ℚ)) / 200 ≤ ((n:ℚ) + 1) / 200 := by linarith
      linarith
    · push_neg at hE0
      have hrev : max_loan_from_emi E rate n = roundTo 2 (E * (x - 1) / (r * x)) := by
        simp only [max_loan_from_emi]
        rw [if_neg (by push_neg; exact ⟨hE0, hn.ne'⟩), if_neg (not_le.mpr hr0)]
      rw [hrev]
      have hEA : E * (x - 1) / (r * x) = E * A := by
        rw [hA_def]; ring
      have h1 : |roundTo 2 (E * (x - 1) / (r * x)) - E * (x - 1) / (r * x)| ≤ 1/200 := by
        have := abs_roundTo_sub 2 (E * (x - 1) / (r * x))
        calc |roundTo 2 (E * (x - 1) / (r * x)) - E * (x - 1) / (r * x)| ≤ 1 / (2 * 10 ^ 2) := this
          _ = 1/200 := by norm_num
      have h2 : |E * (x - 1) / (r * x) - P| ≤ (n : ℚ) / 200 := by
        rw [hEA, ← heA, ← sub_mul, abs_mul, abs_of_nonneg hApos.le]
        calc |E - e| * A ≤ (1/200) * (n : ℚ) :=
              mul_le_mul hEd hAn hApos.le (by norm_num)
          _ = (n : ℚ) / 200 := by ring
      calc |roundTo 2 (E * (x - 1) / (r * x)) - P|
          ≤ |roundTo 2 (E * (x - 1) / (r * x)) - E * (x - 1) / (r * x)| +
            |E * (x - 1) / (r * x) - P| := abs_sub_le _ _ _
        _ ≤ 1/200 + (n : ℚ) / 200 := add_le_add h1 h2
        _ = ((n : ℚ) + 1) / 200 := by ring

/-- C5 witness: the round trip at P = 100000, rate = 12%, n = 12. -/
theorem c5_witness :
    |max_loan_from_emi (calculate_emi 100000 12 12) 12 12 - 100000| ≤ (((12:ℕ) : ℚ) + 1) / 200 :=
  c5_emi_round_trip 100000 12 12 (by norm_num) (by norm_num) (by norm_num)

/-! ## Score tiers (`loan_engine.py`, `SCORE_TIERS` / `get_score_tier`) -/

/-- One entry of the `SCORE_TIERS` table (display colour omitted). -/
structure ScoreTier where
  tier_key : String
  lo : ℚ
  hi : ℚ
  grade : String
  max_simultaneous_loans : ℕ
  max_exposure_multiplier : ℚ
  rate_lo : ℚ
  rate_hi : ℚ
  max_tenure_months : ℕ
  foir_cap : ℚ
  collateral_required : Bool
  processing_fee_pct : ℚ
  pre_approval : String
deriving Repr, DecidableEq

def tierExcellent : ScoreTier :=
  ⟨"excellent", 750, 900, "Excellent", 3, 6, 9, 12, 60, 50/100, false, 1, "Pre-Approved"⟩

def tierGood : ScoreTier :=
  ⟨"good", 650, 749, "Good", 2, 4, 13, 16, 36, 40/100, false, 15/10, "Likely Approved"⟩

def tierFair : ScoreTier :=
  ⟨"fair", 500, 649, "Fair", 1, 2, 18, 22, 18, 35/100, false, 2, "Needs Review"⟩

def tierPoor : ScoreTier :=
  ⟨"poor", 400, 499, "Poor", 1, 1, 24, 30, 12, 30/100, true, 25/10, "High Risk"⟩

def tierVeryPoor : ScoreTier :=
  ⟨"very_poor", 300, 399, "Very Poor", 0, 0, 0, 0, 0, 0, true, 0, "Not Eligible"⟩

/-- `SCORE_TIERS` in dict insertion order. -/
def SCORE_TIERS : List ScoreTier :=
  [tierExcellent, tierGood, tierFair, tierPoor, tierVeryPoor]

/-- First tier whose inclusive range `low ≤ score ≤ high` contains the
score (the `for`-loop of `get_score_tier`). -/
def tierLookup (s : ℚ) : List ScoreTier → Option ScoreTier
  | [] => none
  | t :: ts => if t.lo ≤ s ∧ s ≤ t.hi then some t else tierLookup s ts

/-- `get_score_tier(score)`: range lookup with `very_poor` as default. -/
def get_score_tier (s : ℚ) : ScoreTier :=
  (tierLookup s SCORE_TIERS).getD tierVeryPoor

/-- C2 (amended): for every *integer* score in [300,900] the five bands
contain the score in exactly one tier and the lookup finds it (the default
branch is not taken).  (Non-integer scores inside the four unit gaps
(399,400), (499,500), (649,650), (749,750) fall through to the default —
see the counterexample.) -/
theorem c2_tier_partition (n : ℤ) (h3 : 300 ≤ n) (h9 : n ≤ 900) :
    ∃ t, tierLookup (n:ℚ) SCORE_TIERS = some t ∧ t ∈ SCORE_TIERS ∧
      ∀ t' ∈ SCORE_TIERS, (t'.lo ≤ (n:ℚ) ∧ (n:ℚ) ≤ t'.hi) ↔ t' = t := by
  by_cases h750 : 750 ≤ n
  · refine ⟨tierExcellent, ?_, by simp [SCORE_TIERS], ?_⟩
    · simp only [SCORE_TIERS, tierLookup, tierExcellent, tierGood, tierFair, tierPoor, tierVeryPoor]
      rw [if_pos ⟨by exact_mod_cast h750, by exact_mod_cast h9⟩]
    · simp only [SCORE_TIERS, List.forall_mem_cons, tierExcellent, tierGood, tierFair, tierPoor, tierVeryPoor]
      exact ⟨iff_of_true ⟨by exact_mod_cast h750, by exact_mod_cast h9⟩ trivial,
        iff_of_false (by rintro ⟨-, hb⟩; have hb' : n ≤ (749:ℤ) := (by exact_mod_cast hb); omega) (by simp),
        iff_of_false (by rintro ⟨-, hb⟩; have hb' : n ≤ (649:ℤ) := (by exact_mod_cast hb); omega) (by simp),
        iff_of_false (by rintro ⟨-, hb⟩; have hb' : n ≤ (499:ℤ) := (by exact_mod_cast hb); omega) (by simp),
        iff_of_false (by rintro ⟨-, hb⟩; have hb' : n ≤ (399:ℤ) := (by exact_mod_cast hb); omega) (by simp),
        fun x hx => absurd hx (List.not_mem_nil x)⟩
  by_cases h650 : 650 ≤ n
  · refine ⟨tierGood, ?_, by simp [SCORE_TIERS], ?_⟩
    · simp only [SCORE_TIERS, tierLookup, tierExcellent, tierGood, tierFair, tierPoor, tierVeryPoor]
      rw [if_neg (by rintro ⟨ha, -⟩; have ha' : (750:ℤ) ≤ n := (by exact_mod_cast ha); omega),
        if_pos ⟨by exact_mod_cast h650, by exact_mod_cast (show n ≤ (749:ℤ) by omega)⟩]
    · simp only [SCORE_TIERS, List.forall_mem_cons, tierExcellent, tierGood, tierFair, tierPoor, tierVeryPoor]
      exact ⟨iff_of_false (by rintro ⟨ha, -⟩; have ha' : (750:ℤ) ≤ n := (by exact_mod_cast ha); omega) (by simp),
        iff_of_true ⟨by exact_mod_cast h650, by exact_mod_cast (show n ≤ (749:ℤ) by omega)⟩ trivial,
        iff_of_false (by rintro ⟨-, hb⟩; have hb' : n ≤ (649:ℤ) := (by exact_mod_cast hb); omega) (by simp),
        iff_of_false (by rintro ⟨-, hb⟩; have hb' : n ≤ (499:ℤ) := (by exact_mod_cast hb); omega) (by simp),
        iff_of_false (by rintro ⟨-, hb⟩; have hb' : n ≤ (399:ℤ) := (by exact_mod_cast hb); omega) (by simp),
        fun x hx => absurd hx (List.not_mem_nil x)⟩
  by_cases h500 : 500 ≤ n
  · refine ⟨tierFair, ?_, by simp [SCORE_TIERS], ?_⟩
    · simp only [SCORE_TIERS, tierLookup, tierExcellent, tierGood, tierFair, tierPoor, tierVeryPoor]
      rw [if_neg (by rintro ⟨ha, -⟩; have ha' : (750:ℤ) ≤ n := (by exact_mod_cast ha); omega),
        if_neg (by rintro ⟨ha, -⟩; have ha' : (650:ℤ) ≤ n := (by exact_mod_cast ha); omega),
        if_pos ⟨by exact_mod_cast h500, by exact_mod_cast (show n ≤ (649:ℤ) by omega)⟩]
    · simp only [SCORE_TIERS, List.forall_mem_cons, tierExcellent, tierGood, tierFair, tierPoor, tierVeryPoor]
      exact ⟨iff_of_false (by rintro ⟨ha, -⟩; have ha' : (750:ℤ) ≤ n := (by exact_mod_cast ha); omega) (by simp),
        iff_of_false (by rintro ⟨ha, -⟩; have ha' : (650:ℤ) ≤ n := (by exact_mod_cast ha); omega) (by simp),
        iff_of_true ⟨by exact_mod_cast h500, by exact_mod_cast (show n ≤ (649:ℤ) by omega)⟩ trivial,
        iff_of_false (by rintro ⟨-, hb⟩; have hb' : n ≤ (499:ℤ) := (by exact_mod_cast hb); omega) (by simp),
        iff_of_false (by rintro ⟨-, hb⟩; have hb' : n ≤ (399:ℤ) := (by exact_mod_cast hb); omega) (by simp),
        fun x hx => absurd hx (List.not_mem_nil x)⟩
  by_cases h400 : 400 ≤ n
  · refine ⟨tierPoor, ?_, by simp [SCORE_TIERS], ?_⟩
    · simp only [SCORE_TIERS, tierLookup, tierExcellent, tierGood, tierFair, tierPoor, tierVeryPoor]
      rw [if_neg (by rintro ⟨ha, -⟩; have ha' : (750:ℤ) ≤ n := (by exact_mod_cast ha); omega),
        if_neg (by rintro ⟨ha, -⟩; have ha' : (650:ℤ) ≤ n := (by exact_mod_cast ha); omega),
        if_neg (by rintro ⟨ha, -⟩; have ha' : (500:ℤ) ≤ n := (by exact_mod_cast ha); omega),
        if_pos ⟨by exact_mod_cast h400, by exact_mod_cast (show n ≤ (499:ℤ) by omega)⟩]
    · simp only [SCORE_TIERS, List.forall_mem_cons, tierExcellent, tierGood, tierFair, tierPoor, tierVeryPoor]
      exact ⟨iff_of_false (by rintro ⟨ha, -⟩; have ha' : (750:ℤ) ≤ n := (by exact_mod_cast ha); omega) (by simp),
        iff_of_false (by rintro ⟨ha, -⟩; have ha' : (650:ℤ) ≤ n := (by exact_mod_cast ha); omega) (by simp),
        iff_of_false (by rintro ⟨ha, -⟩; have ha' : (500:ℤ) ≤ n := (by exact_mod_cast ha); omega) (by simp),
        iff_of_true ⟨by exact_mod_cast h400, by exact_mod_cast (show n ≤ (499:ℤ) by omega)⟩ trivial,
        iff_of_false (by rintro ⟨-, hb⟩; have hb' : n ≤ (399:ℤ) := (by exact_mod_cast hb); omega) (by simp),
        fun x hx => absurd hx (List.not_mem_nil x)⟩
  · refine ⟨tierVeryPoor, ?_, by simp [SCORE_TIERS], ?_⟩
    · simp only [SCORE_TIERS, tierLookup, tierExcellent, tierGood, tierFair, tierPoor, tierVeryPoor]
      rw [if_neg (by rintro ⟨ha, -⟩; have ha' : (750:ℤ) ≤ n := (by exact_mod_cast ha); omega),
        if_neg (by rintro ⟨ha, -⟩; have ha' : (650:ℤ) ≤ n := (by exact_mod_cast ha); omega),
        if_neg (by rintro ⟨ha, -⟩; have ha' : (500:ℤ) ≤ n := (by exact_mod_cast ha); omega),
        if_neg (by rintro ⟨ha, -⟩; have ha' : (400:ℤ) ≤ n := (by exact_mod_cast ha); omega),
        if_pos ⟨by exact_mod_cast h3, by exact_mod_cast (show n ≤ (399:ℤ) by omega)⟩]
    · simp only [SCORE_TIERS, List.forall_mem_cons, tierExcellent, tierGood, tierFair, tierPoor, tierVeryPoor]
      exact ⟨iff_of_false (by rintro ⟨ha, -⟩; have ha' : (750:ℤ) ≤ n := (by exact_mod_cast ha); omega) (by simp),
        iff_of_false (by rintro ⟨ha, -⟩; have ha' : (650:ℤ) ≤ n := (by exact_mod_cast ha); omega) (by simp),
        iff_of_false (by rintro ⟨ha, -⟩; have ha' : (500:ℤ) ≤ n := (by exact_mod_cast ha); omega) (by simp),
        iff_of_false (by rintro ⟨ha, -⟩; have ha' : (400:ℤ) ≤ n := (by exact_mod_cast ha); omega) (by simp),
        iff_of_true ⟨by exact_mod_cast h3, by exact_mod_cast (show n ≤ (399:ℤ) by omega)⟩ trivial,
        fun x hx => absurd hx (List.not_mem_nil x)⟩

/-- C2 counterexample: the score 749.5 lies in [300,900] but in none of the
five bands — the lookup falls through and `get_score_tier` silently
returns the default `very_poor` tier, whose own range does not contain
749.5 either. -/
theorem c2_counterexample :
    (300 ≤ (7495/10:ℚ) ∧ (7495/10:ℚ) ≤ 900) ∧
    tierLookup (7495/10) SCORE_TIERS = none ∧
    get_score_tier (7495/10) = tierVeryPoor ∧
    ¬ (tierVeryPoor.lo ≤ (7495/10:ℚ) ∧ (7495/10:ℚ) ≤ tierVeryPoor.hi) := by
  have hlk : tierLookup (7495/10) SCORE_TIERS = none := by
    simp only [SCORE_TIERS, tierLookup, tierExcellent, tierGood, tierFair, tierPoor,
      tierVeryPoor]
    rw [if_neg (by rintro ⟨ha, -⟩; norm_num at ha),
      if_neg (by rintro ⟨-, hb⟩; norm_num at hb),
      if_neg (by rintro ⟨-, hb⟩; norm_num at hb),
      if_neg (by rintro ⟨-, hb⟩; norm_num at hb),
      if_neg (by rintro ⟨-, hb⟩; norm_num at hb)]
  refine ⟨⟨by norm_num, by norm_num⟩, hlk, ?_, ?_⟩
  · unfold get_score_tier
    rw [hlk]
    rfl
  · simp only [tierVeryPoor]
    rintro ⟨-, hb⟩
    norm_num at hb

/-- C2 witness: the amended partition theorem applied at score 800
(and, through it, the concrete tier it selects). -/
theorem c2_witness :
    ∃ t, tierLookup ((800:ℤ):ℚ) SCORE_TIERS = some t ∧ t ∈ SCORE_TIERS ∧
      ∀ t' ∈ SCORE_TIERS, (t'.lo ≤ ((800:ℤ):ℚ) ∧ ((800:ℤ):ℚ) ≤ t'.hi) ↔ t' = t :=
  c2_tier_partition 800 (by norm_num) (by norm_num)

/-! ## RepaymentCapacityAnalyzer (`analyze_repayment_capacity`) -/

/-- The risk-flag strings of `analyze_repayment_capacity`, abstracted to
tags (the source messages carry formatted numbers; only identity and count
are relevant to the engine's logic). -/
inductive RiskFlag where
  | zeroIncome
  | overLeveraged
  | foirExceeded
  | lowDisposable
  | limitedNewEmi
deriving Repr, DecidableEq

/-- The dict returned by `analyze_repayment_capacity` (monetary fields
rounded to 2 decimals, FOIR fields to 4, as in the source). -/
structure RepaymentCapacity where
  monthly_income : ℚ
  monthly_expenses : ℚ
  existing_emi : ℚ
  disposable_income : ℚ
  max_total_emi : ℚ
  max_new_emi : ℚ
  current_foir : ℚ
  foir_limit : ℚ
  foir_headroom : ℚ
  risk_flags : List RiskFlag
  verdict : String
deriving Repr, DecidableEq

/-- `analyze_repayment_capacity(monthly_income, monthly_expenses,
existing_emi, foir_cap)`. -/
def analyze_repayment_capacity (monthly_income monthly_expenses existing_emi
    foir_cap : ℚ) : RepaymentCapacity :=
  if monthly_income ≤ 0 then
    { monthly_income := 0
      monthly_expenses := monthly_expenses
      existing_emi := existing_emi
      disposable_income := 0
      max_total_emi := 0
      max_new_emi := 0
      current_foir := 0
      foir_limit := foir_cap
      foir_headroom := 0
      risk_flags := [RiskFlag.zeroIncome]
      verdict := "NOT_ELIGIBLE" }
  else
    let disposable := monthly_income - monthly_expenses
    let max_total_emi := monthly_income * foir_cap
    let max_new_emi := max (max_total_emi - existing_emi) 0
    let current_foir := existing_emi / monthly_income
    let headroom := max (foir_cap - current_foir) 0
    let risk_flags :=
      (if 1/2 < current_foir then [RiskFlag.overLeveraged] else []) ++
      (if foir_cap < current_foir then [RiskFlag.foirExceeded] else []) ++
      (if disposable < monthly_income * (20/100) then [RiskFlag.lowDisposable] else []) ++
      (if 0 < existing_emi ∧ max_new_emi < 1000 then [RiskFlag.limitedNewEmi] else [])
    let verdict :=
      if max_new_emi ≤ 0 then "NOT_ELIGIBLE"
      else if max_new_emi < 2000 then "MICRO_ONLY"
      else if risk_flags ≠ [] then "ELIGIBLE_WITH_CAUTION"
      else "ELIGIBLE"
    { monthly_income := roundTo 2 monthly_income
      monthly_expenses := roundTo 2 monthly_expenses
      existing_emi := roundTo 2 existing_emi
      disposable_income := roundTo 2 disposable
      max_total_emi := roundTo 2 max_total_emi
      max_new_emi := roundTo 2 max_new_emi
      current_foir := roundTo 4 current_foir
      foir_limit := foir_cap
      foir_headroom := roundTo 4 headroom
      risk_flags := risk_flags
      verdict := verdict }

/-- C3: `analyze_repayment_capacity` zeroes all derived fields, flags the
zero income and returns NOT_ELIGIBLE when income ≤ 0 (no division is ever
attempted); for positive income the verdict follows first-match precedence
on the computed new-EMI headroom `max(income·foir_cap − existing_emi, 0)`:
≤ 0 → NOT_ELIGIBLE, < 2000 → MICRO_ONLY, any risk flag →
ELIGIBLE_WITH_CAUTION, else ELIGIBLE. -/
theorem c3_repayment_capacity (income expenses emi cap : ℚ) :
    (income ≤ 0 →
      (analyze_repayment_capacity income expenses emi cap).verdict = "NOT_ELIGIBLE" ∧
      (analyze_repayment_capacity income expenses emi cap).max_new_emi = 0 ∧
      (analyze_repayment_capacity income expenses emi cap).disposable_income = 0 ∧
      (analyze_repayment_capacity income expenses emi cap).max_total_emi = 0 ∧
      (analyze_repayment_capacity income expenses emi cap).current_foir = 0 ∧
      (analyze_repayment_capacity income expenses emi cap).foir_headroom = 0 ∧
      (analyze_repayment_capacity income expenses emi cap).risk_flags ≠ []) ∧
    (0 < income →
      ((analyze_repayment_capacity income expenses emi cap).verdict = "NOT_ELIGIBLE" ↔
        max (income * cap - emi) 0 ≤ 0) ∧
      ((analyze_repayment_capacity income expenses emi cap).verdict = "MICRO_ONLY" ↔
        0 < max (income * cap - emi) 0 ∧ max (income * cap - emi) 0 < 2000) ∧
      ((analyze_repayment_capacity income expenses emi cap).verdict = "ELIGIBLE_WITH_CAUTION" ↔
        2000 ≤ max (income * cap - emi) 0 ∧
        (analyze_repayment_capacity income expenses emi cap).risk_flags ≠ []) ∧
      ((analyze_repayment_capacity income expenses emi cap).verdict = "ELIGIBLE" ↔
        2000 ≤ max (income * cap - emi) 0 ∧
        (analyze_repayment_capacity income expenses emi cap).risk_flags = [])) := by
  constructor
  · intro h0
    unfold analyze_repayment_capacity
    rw [if_pos h0]
    refine ⟨rfl, rfl, rfl, rfl, rfl, rfl, by simp⟩
  · intro hpos
    have hneg : ¬ income ≤ 0 := not_le.mpr hpos
    unfold analyze_repayment_capacity
    rw [if_neg hneg]
    simp only
    set mne : ℚ := max (income * cap - emi) 0 with hmne
    set flags : List RiskFlag :=
      (if 1/2 < emi / income then [RiskFlag.overLeveraged] else []) ++
      (if cap < emi / income then [RiskFlag.foirExceeded] else []) ++
      (if income - expenses < income * (20/100) then [RiskFlag.lowDisposable] else []) ++
      (if 0 < emi ∧ mne < 1000 then [RiskFlag.limitedNewEmi] else []) with hflags
    by_cases h1 : mne ≤ 0
    · rw [if_pos h1]
      refine ⟨iff_of_true rfl h1, ?_, ?_, ?_⟩
      · exact iff_of_false (by simp) (by rintro ⟨a, b⟩; linarith)
      · exact iff_of_false (by simp) (by rintro ⟨a, _⟩; linarith)
      · exact iff_of_false (by simp) (by rintro ⟨a, _⟩; linarith)
    · rw [if_neg h1]
      push_neg at h1
      by_cases h2 : mne < 2000
      · rw [if_pos h2]
        refine ⟨?_, iff_of_true rfl ⟨h1, h2⟩, ?_, ?_⟩
        · exact iff_of_false (by simp) (by intro a; linarith)
        · exact iff_of_false (by simp) (by rintro ⟨a, _⟩; linarith)
        · exact iff_of_false (by simp) (by rintro ⟨a, _⟩; linarith)
      · rw [if_neg h2]
        push_neg at h2
        by_cases h3 : flags ≠ []
        · rw [if_pos h3]
          refine ⟨?_, ?_, iff_of_true rfl ⟨h2, h3⟩, ?_⟩
          · exact iff_of_false (by simp) (by intro a; linarith)
          · exact iff_of_false (by simp) (by rintro ⟨_, b⟩; linarith)
          · exact iff_of_false (by simp) (by rintro ⟨_, hfl⟩; exact h3 hfl)
        · rw [if_neg h3]
          push_neg at h3
          refine ⟨?_, ?_, ?_, iff_of_true rfl ⟨h2, h3⟩⟩
          · exact iff_of_false (by simp) (by intro a; linarith)
          · exact iff_of_false (by simp) (by rintro ⟨_, b⟩; linarith)
          · exact iff_of_false (by simp) (by rintro ⟨_, hfl⟩; exact hfl h3)

/-- C3 witness: a healthy profile (income 10000, expenses 2000, EMI 1000,
cap 0.4) is ELIGIBLE, and a zero-income call is NOT_ELIGIBLE with zeroed
fields and a non-empty flag list. -/
theorem c3_witness :
    (analyze_repayment_capacity 0 5000 2000 (40/100)).verdict = "NOT_ELIGIBLE" ∧
    (analyze_repayment_capacity 0 5000 2000 (40/100)).max_new_emi = 0 ∧
    (analyze_repayment_capacity 0 5000 2000 (40/100)).risk_flags ≠ [] ∧
    (analyze_repayment_capacity 10000 2000 1000 (40/100)).verdict = "ELIGIBLE" := by
  obtain ⟨hz, _⟩ := c3_repayment_capacity 0 5000 2000 (40/100)
  obtain ⟨hv, hm, _, _, _, _, hf⟩ := hz (le_refl 0)
  obtain ⟨_, hp⟩ := c3_repayment_capacity 10000 2000 1000 (40/100)
  obtain ⟨_, _, _, he⟩ := hp (by norm_num)
  refine ⟨hv, hm, hf, he.mpr ⟨?_, ?_⟩⟩
  · rw [max_eq_left (by norm_num)]; norm_num
  · unfold analyze_repayment_capacity
    rw [if_neg (by norm_num)]
    simp only
    rw [if_neg (by norm_num), if_neg (by norm_num), if_neg (by norm_num),
      if_neg ?_]
    · simp
    · rw [max_eq_left (by norm_num)]
      push_neg
      intro
      norm_num

/-! ## Repayment schedule generator (`generate_repayment_schedule`) -/

/-- One row of the amortization schedule (month label as index/year,
monetary fields rounded to 2 decimals as in the source). -/
structure ScheduleEntry where
  month : ℕ
  year : ℤ
  emi : ℚ
  principal_component : ℚ
  interest : ℚ
  balance : ℚ
deriving Repr, DecidableEq

def dummyEntry : ScheduleEntry := ⟨0, 0, 0, 0, 0, 0⟩

/-- One iteration of the schedule loop on the running balance:
`interest = balance·r`, `principal = EMI − interest`,
`balance' = max(balance − principal, 0)`. -/
def scheduleStep (emi r bal : ℚ) : ℚ := max (bal - (emi - bal * r)) 0

/-- The running balance after `k` months. -/
def balAfter (emi r P : ℚ) : ℕ → ℚ
  | 0 => P
  | k+1 => scheduleStep emi r (balAfter emi r P k)

/-- The month-by-month loop of `generate_repayment_schedule`: `k` months
remaining, `i` months already emitted (default start "Jan 2026", so
`start_month_idx = 0`, `start_year = 2026`). -/
def scheduleAux (emi r : ℚ) : ℚ → ℕ → ℕ → List ScheduleEntry
  | _, 0, _ => []
  | bal, k+1, i =>
    { month := i % 12, year := 2026 + (i / 12 : ℕ), emi := roundTo 2 emi,
      principal_component := roundTo 2 (emi - bal * r),
      interest := roundTo 2 (bal * r),
      balance := roundTo 2 (scheduleStep emi r bal) } ::
      scheduleAux emi r (scheduleStep emi r bal) k (i+1)

/-- `generate_repayment_schedule(principal, annual_rate, tenure_months)`
with the default start month. -/
def generate_repayment_schedule (principal annual_rate : ℚ)
    (tenure_months : ℕ) : List ScheduleEntry :=
  if principal ≤ 0 ∨ tenure_months = 0 then []
  else
    scheduleAux (calculate_emi principal annual_rate tenure_months)
      (if 0 < annual_rate then annual_rate / 1200 else 0) principal tenure_months 0

theorem scheduleAux_length (emi r : ℚ) :
    ∀ (k : ℕ) (b : ℚ) (i : ℕ), (scheduleAux emi r b k i).length = k := by
  intro k
  induction k with
  | zero => intro b i; rfl
  | succ m ih => intro b i; simp [scheduleAux, ih]

theorem balAfter_succ_left (emi r P : ℚ) (k : ℕ) :
    balAfter emi r P (k+1) = balAfter emi r (scheduleStep emi r P) k := by
  induction k with
  | zero => rfl
  | succ m ih => rw [balAfter, ih, balAfter]

theorem scheduleAux_getD (emi r : ℚ) :
    ∀ (k : ℕ) (b : ℚ) (st i : ℕ), i < k →
      ((scheduleAux emi r b k st).getD i dummyEntry).balance =
        roundTo 2 (balAfter emi r b (i+1)) := by
  intro k
  induction k with
  | zero => intro b st i hi; omega
  | succ m ih =>
      intro b st i hi
      cases i with
      | zero => simp [scheduleAux, balAfter]
      | succ j =>
          have hj : j < m := by omega
          calc ((scheduleAux emi r b (m+1) st).getD (j+1) dummyEntry).balance
              = ((scheduleAux emi r (scheduleStep emi r b) m (st+1)).getD j dummyEntry).balance := by
                simp [scheduleAux]
            _ = roundTo 2 (balAfter emi r (scheduleStep emi r b) (j+1)) := ih _ _ j hj
            _ = roundTo 2 (balAfter emi r b (j+2)) := by rw [← balAfter_succ_left]

theorem balAfter_nonneg {emi r P : ℚ} (hP : 0 ≤ P) (k : ℕ) :
    0 ≤ balAfter emi r P k := by
  cases k with
  | zero => exact hP
  | succ m => exact le_max_right _ _

theorem scheduleStep_mono (emi r : ℚ) (hr : 0 ≤ r) {b b' : ℚ} (h : b ≤ b') :
    scheduleStep emi r b ≤ scheduleStep emi r b' := by
  unfold scheduleStep
  apply max_le_max _ (le_refl 0)
  nlinarith

theorem balAfter_antitone {emi r P : ℚ} (hr : 0 ≤ r)
    (h1 : scheduleStep emi r P ≤ P) (k : ℕ) :
    balAfter emi r P (k+1) ≤ balAfter emi r P k := by
  induction k with
  | zero => exact h1
  | succ m ih => exact scheduleStep_mono emi r hr ih

theorem balAfter_le_of_le {emi r P : ℚ} (hr : 0 ≤ r)
    (h1 : scheduleStep emi r P ≤ P) {i j : ℕ} (hij : i ≤ j) :
    balAfter emi r P j ≤ balAfter emi r P i := by
  induction j with
  | zero => simp_all
  | succ m ih =>
      rcases Nat.lt_or_ge i (m+1) with hlt | hge
      · exact le_trans (balAfter_antitone hr h1 m) (ih (by omega))
      · have : i = m + 1 := by omega
        rw [this]

/-- Closed form of the running balance when the `max(·, 0)` clamp never
fires: `P(1+r)^k − EMI·((1+r)^k − 1)/r`. -/
def exactBal (emi r P : ℚ) (k : ℕ) : ℚ :=
  P * (1 + r) ^ k - emi * ((1 + r) ^ k - 1) / r

theorem exactBal_succ {emi r P : ℚ} (hr : r ≠ 0) (k : ℕ) :
    exactBal emi r P (k+1) = exactBal emi r P k * (1 + r) - emi := by
  unfold exactBal
  field_simp
  ring

theorem balAfter_le_exact {emi r P : ℚ} (hr : 0 < r) (hE : 0 ≤ emi) (hP : 0 ≤ P) :
    ∀ k : ℕ, balAfter emi r P k ≤ max (exactBal emi r P k) 0 := by
  intro k
  induction k with
  | zero =>
      have : exactBal emi r P 0 = P := by unfold exactBal; field_simp
      rw [this]
      exact le_trans (le_refl P) (le_max_left _ _)
  | succ m ih =>
      have hb0 : 0 ≤ balAfter emi r P m := balAfter_nonneg hP m
      rcases le_or_lt 0 (exactBal emi r P m) with hpos | hneg
      · have hble : balAfter emi r P m ≤ exactBal emi r P m := by
          have := ih; rwa [max_eq_left hpos] at this
        have hstep : scheduleStep emi r (balAfter emi r P m) ≤
            max (exactBal emi r P m * (1 + r) - emi) 0 := by
          unfold scheduleStep
          apply max_le_max _ (le_refl 0)
          nlinarith
        rw [balAfter, exactBal_succ hr.ne']
        exact hstep
      · have hbz : balAfter emi r P m = 0 := by
          have := ih; rw [max_eq_right hneg.le] at this
          linarith
        rw [balAfter, hbz]
        unfold scheduleStep
        have : max (0 - (emi - 0 * r)) 0 = 0 := by
          rw [max_eq_right]; linarith
        rw [this]
        exact le_max_right _ _

/-- C6 (amended): for P > 0, annual rate > 0 and n > 0 months,
`generate_repayment_schedule(P, rate, n)` always has exactly n entries;
its (rounded) balance column is non-increasing provided the rounded EMI
covers the first month's interest (`P·r ≤ EMI`, `r = rate/1200` — the
rounded EMI can fall below `P·r` only when the exact EMI is within 1/200 of
it); and the final balance is < 1.0 provided the reverse-EMI growth factor
is moderate (`(1+r)^n − 1 ≤ 198·r`), which bounds the amplification of the
EMI's 2-decimal rounding error below one rupee. -/
theorem c6_schedule_props (P rate : ℚ) (n : ℕ) (hP : 0 < P) (hrate : 0 < rate)
    (hn : 0 < n) :
    (generate_repayment_schedule P rate n).length = n ∧
    (P * (rate/1200) ≤ calculate_emi P rate n →
      ∀ i j : ℕ, i ≤ j → j < n →
        ((generate_repayment_schedule P rate n).getD j dummyEntry).balance ≤
        ((generate_repayment_schedule P rate n).getD i dummyEntry).balance) ∧
    ((1 + rate/1200) ^ n - 1 ≤ 198 * (rate/1200) →
      ((generate_repayment_schedule P rate n).getD (n-1) dummyEntry).balance < 1) := by
  set r : ℚ := rate / 1200 with hr_def
  have hrpos : 0 < r := by positivity
  set E : ℚ := calculate_emi P rate n with hE_def
  have hgen : generate_repayment_schedule P rate n = scheduleAux E r P n 0 := by
    unfold generate_repayment_schedule
    rw [if_neg (by push_neg; exact ⟨hP, hn.ne'⟩), if_pos hrate]
  set x : ℚ := (1 + r) ^ n with hx_def
  have hx1 : 1 < x := one_lt_pow_one_add hrpos hn.ne'
  have hx1' : 0 < x - 1 := by linarith
  set e : ℚ := P * r * x / (x - 1) with he_def
  have hepos : 0 < e := by positivity
  have hemi : E = roundTo 2 e := by
    rw [hE_def]
    simp only [calculate_emi]
    rw [if_neg (by push_neg; exact ⟨hP, hn.ne'⟩), if_neg (not_le.mpr hrate)]
  have hEnn : 0 ≤ E := by rw [hemi]; exact roundTo_nonneg 2 hepos.le
  refine ⟨by rw [hgen, scheduleAux_length], ?_, ?_⟩
  · intro hPE i j hij hjn
    rw [hgen, scheduleAux_getD E r n P 0 j hjn,
      scheduleAux_getD E r n P 0 i (lt_of_le_of_lt hij hjn)]
    apply roundTo_mono
    apply balAfter_le_of_le hrpos.le _ (by omega)
    unfold scheduleStep
    apply max_le _ hP.le
    nlinarith
  · intro hgrow
    rw [hgen, scheduleAux_getD E r n P 0 (n-1) (by omega)]
    have hidx : n - 1 + 1 = n := by omega
    rw [hidx]
    have hlow : e - 1/200 ≤ E := by
      rw [hemi]
      have := le_roundTo 2 e
      calc e - 1/200 = e - 1 / (2 * 10 ^ 2) := by norm_num
        _ ≤ roundTo 2 e := this
    have hclose : e * (x - 1) / r = P * x := by
      rw [he_def]
      field_simp
      ring
    have hexact : exactBal E r P n ≤ (x - 1) / (200 * r) := by
      unfold exactBal
      rw [← hx_def]
      have h1 : E * (x - 1) / r ≥ (e - 1/200) * (x - 1) / r := by
        apply div_le_div_of_nonneg_right _ hrpos.le
        nlinarith
      have h2 : (e - 1/200) * (x - 1) / r = P * x - (x - 1) / (200 * r) := by
        have expand : (e - 1/200) * (x - 1) / r = e * (x - 1) / r - (x - 1) / (200 * r) := by
          ring
        rw [expand, hclose]
      linarith [h1, h2.le]
    have hbound : balAfter E r P n ≤ 99/100 := by
      have h1 := balAfter_le_exact hrpos hEnn hP.le n
      have h2 : (x - 1) / (200 * r) ≤ 99/100 := by
        rw [div_le_iff₀ (by positivity)]
        nlinarith
      have h3 : max (exactBal E r P n) 0 ≤ 99/100 :=
        max_le (le_trans hexact h2) (by norm_num)
      linarith
    have := roundTo_le 2 (balAfter E r P n)
    have hr2 : (1:ℚ) / (2 * 10 ^ 2) = 1/200 := by norm_num
    rw [hr2] at this
    linarith

theorem balAfter_zero_emi (r P : ℚ) (hr : 0 ≤ r) (hP : 0 ≤ P) (k : ℕ) :
    balAfter 0 r P k = P * (1 + r) ^ k := by
  have h1r : (0:ℚ) ≤ 1 + r := by linarith
  induction k with
  | zero => simp [balAfter]
  | succ m ih =>
      rw [balAfter, scheduleStep, ih]
      have he : P * (1 + r) ^ m - (0 - P * (1 + r) ^ m * r) = P * (1 + r) ^ (m+1) := by
        ring
      rw [he, max_eq_left (mul_nonneg hP (pow_nonneg h1r (m+1)))]

theorem balAfter_eval_step (emi r P b b' : ℚ) (k : ℕ) (h : balAfter emi r P k = b)
    (h2 : max (b - (emi - b * r)) 0 = b') :
    balAfter emi r P (k+1) = b' := by
  rw [balAfter, scheduleStep, h, h2]

/-- C6 counterexample: both universally-quantified parts of the claim fail.
(i) At P = 0.05, rate = 12, n = 12 the exact EMI (≈0.0044) rounds to 0.00,
so the balance grows with interest and the rounded balance column
*increases* from 0.05 (entry 8) to 0.06 (entry 9). (ii) At
P = 5119547/512000 ≈ 9.9991, rate = 1200, n = 11 the EMI 10.004 rounds
down to 10.00 and the amplified rounding error leaves a final balance of
8.19 ≥ 1.0. -/
theorem c6_counterexample :
    ((0:ℚ) < 1/20 ∧ (0:ℚ) < 12 ∧ 0 < 12 ∧
      ((generate_repayment_schedule (1/20) 12 12).getD 8 dummyEntry).balance = 1/20 ∧
      ((generate_repayment_schedule (1/20) 12 12).getD 9 dummyEntry).balance = 3/50 ∧
      ¬ ((generate_repayment_schedule (1/20) 12 12).getD 9 dummyEntry).balance ≤
        ((generate_repayment_schedule (1/20) 12 12).getD 8 dummyEntry).balance) ∧
    ((0:ℚ) < 5119547/512000 ∧ (0:ℚ) < 1200 ∧ 0 < 11 ∧
      (generate_repayment_schedule (5119547/512000) 1200 11).length = 11 ∧
      ((generate_repayment_schedule (5119547/512000) 1200 11).getD 10 dummyEntry).balance
        = 819/100 ∧
      ¬ ((generate_repayment_schedule (5119547/512000) 1200 11).getD 10 dummyEntry).balance
        < 1) := by
  constructor
  · -- part (i): rounded EMI = 0, balances grow
    have hE : calculate_emi (1/20) 12 12 = 0 := by
      simp only [calculate_emi]
      rw [if_neg (by norm_num), if_neg (by norm_num)]
      have h := roundTo_eq_of_lt 2
        (q := (1:ℚ)/20 * (12/1200) * (1 + 12/1200) ^ 12 / ((1 + 12/1200) ^ 12 - 1)) 0
        (by norm_num) (by norm_num)
      simpa using h
    have hgen : generate_repayment_schedule (1/20) 12 12 =
        scheduleAux 0 (12/1200) (1/20) 12 0 := by
      unfold generate_repayment_schedule
      rw [if_neg (by norm_num), if_pos (by norm_num : (0:ℚ) < 12), hE]
    have h8 : ((generate_repayment_schedule (1/20) 12 12).getD 8 dummyEntry).balance
        = roundTo 2 (balAfter 0 (12/1200) (1/20) 9) := by
      rw [hgen]
      exact scheduleAux_getD 0 (12/1200) 12 (1/20) 0 8 (by norm_num)
    have h9 : ((generate_repayment_schedule (1/20) 12 12).getD 9 dummyEntry).balance
        = roundTo 2 (balAfter 0 (12/1200) (1/20) 10) := by
      rw [hgen]
      exact scheduleAux_getD 0 (12/1200) 12 (1/20) 0 9 (by norm_num)
    have hb9 : balAfter 0 (12/1200) (1/20) 9 = (1/20) * (1 + 12/1200) ^ 9 :=
      balAfter_zero_emi (12/1200) (1/20) (by norm_num) (by norm_num) 9
    have hb10 : balAfter 0 (12/1200) (1/20) 10 = (1/20) * (1 + 12/1200) ^ 10 :=
      balAfter_zero_emi (12/1200) (1/20) (by norm_num) (by norm_num) 10
    have hv8 : ((generate_repayment_schedule (1/20) 12 12).getD 8 dummyEntry).balance
        = 1/20 := by
      rw [h8, hb9]
      have := roundTo_eq_of_lt 2 (q := (1:ℚ)/20 * (1 + 12/1200) ^ 9) 5
        (by norm_num) (by norm_num)
      rw [this]; norm_num
    have hv9 : ((generate_repayment_schedule (1/20) 12 12).getD 9 dummyEntry).balance
        = 3/50 := by
      rw [h9, hb10]
      have := roundTo_eq_of_gt 2 (q := (1:ℚ)/20 * (1 + 12/1200) ^ 10) 5
        (by norm_num) (by norm_num)
      rw [this]; norm_num
    refine ⟨by norm_num, by norm_num, by norm_num, hv8, hv9, ?_⟩
    rw [hv8, hv9]; norm_num
  · -- part (ii): final balance 8.19
    have hE : calculate_emi (5119547/512000) 1200 11 = 10 := by
      simp only [calculate_emi]
      rw [if_neg (by norm_num), if_neg (by norm_num)]
      have h := roundTo_eq_of_lt 2
        (q := (5119547:ℚ)/512000 * (1200/1200) * (1 + 1200/1200) ^ 11 /
          ((1 + 1200/1200) ^ 11 - 1)) 1000
        (by norm_num) (by norm_num)
      rw [h]; norm_num
    have hgen : generate_repayment_schedule (5119547/512000) 1200 11 =
        scheduleAux 10 (1200/1200) (5119547/512000) 11 0 := by
      unfold generate_repayment_schedule
      rw [if_neg (by norm_num), if_pos (by norm_num : (0:ℚ) < 1200), hE]
    have h0 : balAfter (10:ℚ) (1200/1200) (5119547/512000) 0 = 5119547/512000 := rfl
    have h1 : balAfter (10:ℚ) (1200/1200) (5119547/512000) 1 = 2559547/256000 :=
      balAfter_eval_step _ _ _ _ _ 0 h0 (by rw [max_eq_left (by norm_num)]; norm_num)
    have h2 : balAfter (10:ℚ) (1200/1200) (5119547/512000) 2 = 1279547/128000 :=
      balAfter_eval_step _ _ _ _ _ 1 h1 (by rw [max_eq_left (by norm_num)]; norm_num)
    have h3 : balAfter (10:ℚ) (1200/1200) (5119547/512000) 3 = 639547/64000 :=
      balAfter_eval_step _ _ _ _ _ 2 h2 (by rw [max_eq_left (by norm_num)]; norm_num)
    have h4 : balAfter (10:ℚ) (1200/1200) (5119547/512000) 4 = 319547/32000 :=
      balAfter_eval_step _ _ _ _ _ 3 h3 (by rw [max_eq_left (by norm_num)]; norm_num)
    have h5 : balAfter (10:ℚ) (1200/1200) (5119547/512000) 5 = 159547/16000 :=
      balAfter_eval_step _ _ _ _ _ 4 h4 (by rw [max_eq_left (by norm_num)]; norm_num)
    have h6 : balAfter (10:ℚ) (1200/1200) (5119547/512000) 6 = 79547/8000 :=
      balAfter_eval_step _ _ _ _ _ 5 h5 (by rw [max_eq_left (by norm_num)]; norm_num)
    have h7 : balAfter (10:ℚ) (1200/1200) (5119547/512000) 7 = 39547/4000 :=
      balAfter_eval_step _ _ _ _ _ 6 h6 (by rw [max_eq_left (by norm_num)]; norm_num)
    have h8 : balAfter (10:ℚ) (1200/1200) (5119547/512000) 8 = 19547/2000 :=
      balAfter_eval_step _ _ _ _ _ 7 h7 (by rw [max_eq_left (by norm_num)]; norm_num)
    have h9 : balAfter (10:ℚ) (1200/1200) (5119547/512000) 9 = 9547/1000 :=
      balAfter_eval_step _ _ _ _ _ 8 h8 (by rw [max_eq_left (by norm_num)]; norm_num)
    have h10 : balAfter (10:ℚ) (1200/1200) (5119547/512000) 10 = 4547/500 :=
      balAfter_eval_step _ _ _ _ _ 9 h9 (by rw [max_eq_left (by norm_num)]; norm_num)
    have h11 : balAfter (10:ℚ) (1200/1200) (5119547/512000) 11 = 2047/250 :=
      balAfter_eval_step _ _ _ _ _ 10 h10 (by rw [max_eq_left (by norm_num)]; norm_num)
    have hget : ((generate_repayment_schedule (5119547/512000) 1200 11).getD 10
        dummyEntry).balance = roundTo 2 (balAfter 10 (1200/1200) (5119547/512000) 11) := by
      rw [hgen]
      exact scheduleAux_getD 10 (1200/1200) 11 (5119547/512000) 0 10 (by norm_num)
    have hval : ((generate_repayment_schedule (5119547/512000) 1200 11).getD 10
        dummyEntry).balance = 819/100 := by
      rw [hget, h11]
      have := roundTo_eq_of_gt 2 (q := (2047:ℚ)/250) 818 (by norm_num) (by norm_num)
      rw [this]; norm_num
    refine ⟨by norm_num, by norm_num, by norm_num, ?_, hval, ?_⟩
    · rw [hgen, scheduleAux_length]
    · rw [hval]; norm_num

/-! ## Loan catalogs (`TRANSACTION_LOANS`, `PERSONA_LOANS`)

One unified product record mirroring how the engine reads the catalog
dicts (`loan.get("min_income", 0)` and `loan.get("eligibility_criteria",
[])` default when absent; `subsidy` records whether a subsidy text is
present; icon, fee text, description, lender and document lists are
presentational strings not read by any modelled logic). -/

structure CatalogLoan where
  name : String
  category : String
  min_score : ℚ
  min_income : ℚ
  amount_lo : ℤ
  amount_hi : ℤ
  rate_lo : ℚ
  rate_hi : ℚ
  tenure_lo : ℕ
  tenure_hi : ℕ
  collateral : Bool
  subsidy : Bool
  eligibility_criteria : List String
deriving Repr, DecidableEq

/-- The transaction-path catalog (9 products) in dict insertion order. -/
def TRANSACTION_LOANS : List (String × CatalogLoan) :=
  [("personal_loan", ⟨"Personal Loan", "Personal", 550, 10000, 25000, 500000, 21/2, 24, 6, 60, false, false, []⟩),
   ("business_loan", ⟨"Business Loan / Working Capital", "Business", 600, 15000, 50000, 1000000, 12, 22, 12, 60, false, false, []⟩),
   ("home_loan", ⟨"Home Loan", "Property", 700, 25000, 500000, 5000000, 17/2, 12, 60, 360, true, true, []⟩),
   ("vehicle_loan", ⟨"Vehicle / Auto Loan", "Vehicle", 600, 20000, 100000, 1500000, 9, 15, 12, 84, true, false, []⟩),
   ("education_loan", ⟨"Education Loan", "Education", 500, 0, 100000, 2000000, 8, 14, 60, 180, false, true, []⟩),
   ("gold_loan", ⟨"Gold Loan", "Secured", 400, 0, 10000, 2500000, 7, 15, 3, 36, true, false, []⟩),
   ("credit_card", ⟨"Credit Card", "Revolving", 650, 15000, 15000, 300000, 24, 42, 0, 0, false, false, []⟩),
   ("loan_against_fd", ⟨"Loan Against FD / MF", "Secured", 400, 0, 10000, 1000000, 13/2, 10, 1, 60, true, false, []⟩),
   ("emergency_loan", ⟨"Emergency / Instant Loan", "Personal", 450, 8000, 5000, 100000, 15, 36, 1, 12, false, false, []⟩)]

/-- The persona-path catalogs (5 sub-catalogs, 25 products). -/
def PERSONA_LOANS : List (String × List (String × CatalogLoan)) :=
  [("farmer",
    [("kcc", ⟨"Kisan Credit Card (KCC)", "Agriculture", 450, 0, 25000, 300000, 4, 7, 12, 60, false, true, ["owns_land", "crops_per_year"]⟩),
     ("crop_loan", ⟨"Crop Loan", "Agriculture", 400, 0, 10000, 200000, 4, 9, 6, 12, false, true, ["owns_land"]⟩),
     ("farm_equipment", ⟨"Farm Equipment Loan", "Agriculture", 550, 0, 50000, 1000000, 8, 12, 24, 84, true, true, ["owns_land", "land_acres"]⟩),
     ("dairy_poultry", ⟨"Dairy / Poultry / Fishery Loan", "Allied Agriculture", 500, 0, 25000, 500000, 7, 11, 12, 60, false, true, []⟩),
     ("solar_pump", ⟨"Solar Pump Loan (PM-KUSUM)", "Agriculture", 450, 0, 20000, 300000, 5, 8, 12, 84, false, true, ["owns_land"]⟩),
     ("warehouse_receipt", ⟨"Warehouse Receipt Loan", "Agriculture", 500, 0, 10000, 500000, 6, 9, 3, 12, true, false, ["has_warehouse_receipt"]⟩)]),
   ("student",
    [("education_loan", ⟨"Education Loan (Vidya Lakshmi)", "Education", 450, 0, 100000, 2000000, 8, 12, 60, 180, false, true, ["score_value"]⟩),
     ("skill_loan", ⟨"Skill Development Loan", "Education", 400, 0, 5000, 150000, 8, 12, 3, 84, false, true, []⟩),
     ("device_loan", ⟨"Laptop / Device Loan", "Personal", 500, 0, 10000, 100000, 12, 18, 3, 24, false, false, []⟩),
     ("startup_loan", ⟨"Startup India Seed Loan", "Business", 600, 0, 100000, 500000, 10, 14, 12, 60, false, true, ["has_internship"]⟩)]),
   ("street_vendor",
    [("pm_svanidhi", ⟨"PM SVANidhi (Street Vendor Loan)", "Micro Enterprise", 350, 0, 10000, 50000, 0, 7, 12, 12, false, true, ["has_license"]⟩),
     ("mudra_shishu", ⟨"Mudra Loan — Shishu (up to ₹50K)", "Micro Enterprise", 400, 0, 10000, 50000, 10, 14, 12, 36, false, false, []⟩),
     ("mudra_kishore", ⟨"Mudra Loan — Kishore (₹50K–₹5L)", "Micro Enterprise", 550, 0, 50000, 500000, 11, 16, 12, 60, false, false, ["years_in_trade"]⟩),
     ("cart_equipment", ⟨"Cart / Equipment Loan", "Micro Enterprise", 450, 0, 5000, 100000, 12, 18, 6, 36, false, false, []⟩),
     ("working_capital_micro", ⟨"Working Capital Micro Loan", "Micro Enterprise", 400, 0, 5000, 75000, 12, 24, 3, 12, false, false, []⟩)]),
   ("homemaker",
    [("shg_loan", ⟨"SHG Group Loan (NRLM)", "Group Lending", 350, 0, 10000, 200000, 4, 12, 12, 36, false, true, ["is_shg_member"]⟩),
     ("mudra_shishu_w", ⟨"Mudra Loan — Shishu (Women)", "Micro Enterprise", 400, 0, 10000, 50000, 10, 14, 12, 36, false, false, ["has_enterprise"]⟩),
     ("standup_india", ⟨"Stand-Up India Loan (Women)", "Enterprise", 550, 0, 100000, 10000000, 8, 12, 36, 84, false, true, ["has_enterprise"]⟩),
     ("micro_enterprise_w", ⟨"Micro Enterprise Loan", "Micro Enterprise", 500, 0, 25000, 200000, 12, 18, 12, 48, false, false, ["has_enterprise"]⟩),
     ("gold_loan_w", ⟨"Gold Loan", "Secured", 350, 0, 5000, 500000, 7, 12, 3, 24, true, false, []⟩)]),
   ("general_no_bank",
    [("mudra_shishu_g", ⟨"Mudra Loan — Shishu", "Micro Enterprise", 400, 0, 10000, 50000, 10, 14, 12, 36, false, false, []⟩),
     ("personal_micro", ⟨"Personal Micro Loan", "Personal", 450, 0, 5000, 50000, 15, 26, 3, 12, false, false, []⟩),
     ("emergency_micro", ⟨"Emergency Micro Loan", "Emergency", 350, 0, 1000, 25000, 18, 30, 1, 6, false, false, []⟩),
     ("gold_loan_g", ⟨"Gold Loan", "Secured", 350, 0, 5000, 500000, 7, 12, 3, 24, true, false, []⟩),
     ("jlg_loan", ⟨"Joint Liability Group (JLG) Loan", "Group Lending", 400, 0, 10000, 100000, 12, 18, 6, 24, false, false, ["is_group_member"]⟩)])]

/-! ## Persona-path query data

`persona_data` is a free-form dict; the loan engine reads it in two ways:
truthiness of a criterion key (`val and val not in (False, 0, "", "0",
"none")`), modelled by the `truthy` predicate, and a handful of numeric
fields with `.get` defaults for income estimation, modelled as `Option`
fields (`none` = key absent). -/
structure LoanQueryData where
  truthy : String → Bool
  land_acres : Option ℚ
  crops_per_year : Option ℤ
  monthly_earnings : Option ℚ
  total_scholarship_value : Option ℚ
  avg_daily_income : Option ℚ
  working_days_per_month : Option ℤ
  household_income : Option ℚ
  monthly_revenue : Option ℚ
  rent_amount : Option ℚ

/-- A `persona_data` dict with no keys set. -/
def emptyQueryData : LoanQueryData :=
  ⟨fun _ => false, none, none, none, none, none, none, none, none, none⟩

/-- `_estimate_income_from_persona(persona, data)`. -/
def estimate_income_from_persona (persona : String) (d : LoanQueryData) : ℚ :=
  if persona = "farmer" then
    d.land_acres.getD 2 * 18000 * ((d.crops_per_year.getD 2 : ℤ) : ℚ) / 12
  else if persona = "student" then
    max (d.monthly_earnings.getD 0 + d.total_scholarship_value.getD 0 / 12) 5000
  else if persona = "street_vendor" then
    d.avg_daily_income.getD 500 * ((d.working_days_per_month.getD 25 : ℤ) : ℚ)
  else if persona = "homemaker" then
    d.household_income.getD 15000 + d.monthly_revenue.getD 0
  else if persona = "general_no_bank" then
    max (d.rent_amount.getD 2000 * (35/10)) 8000
  else 10000

/-! ## Persona loan details (`_check_persona_loan_eligibility`,
`_build_persona_loan_detail`)

Reason strings are modelled as fixed tags; the source messages carry
interpolated numbers but only their identity and count feed back into the
engine's logic. -/

structure Elig where
  eligible : Bool
  reasons : List String
  criteria_met : List String
  criteria_not_met : List String
deriving Repr, DecidableEq

/-- `_check_persona_loan_eligibility(loan, score, data, tier)`: the score
and tier gates are hard; missing persona criteria are soft (reported but
never flip `eligible`). -/
def check_persona_loan_eligibility (loan : CatalogLoan) (score : ℚ)
    (d : LoanQueryData) (tier : ScoreTier) : Elig :=
  let notMet := loan.eligibility_criteria.filter (fun c => !(d.truthy c))
  { eligible := decide (¬ score < loan.min_score ∧ ¬ tier.max_simultaneous_loans = 0)
    reasons :=
      (if score < loan.min_score then ["score_below_minimum"] else []) ++
      (if tier.max_simultaneous_loans = 0 then ["tier_blocked"] else []) ++
      (if notMet ≠ [] then ["missing_criteria"] else [])
    criteria_met := loan.eligibility_criteria.filter d.truthy
    criteria_not_met := notMet }

/-- The per-product detail dict built by the persona path (fields read by
`compare_loans` and the claims; presentational string fields omitted). -/
structure LoanDetail where
  key : String
  name : String
  eligible : Bool
  reasons : List String
  criteria_met : List String
  criteria_not_met : List String
  effective_rate : ℚ
  max_loan_amount : ℚ
  recommended_amount : ℚ
  min_amount : ℚ
  emi : ℚ
  suggested_tenure : ℕ
  total_interest : ℚ
  interest_saved_via_subsidy : ℚ
  collateral_required : Bool
  subsidy : Bool
deriving Repr, DecidableEq

/-- `_build_persona_loan_detail(loan_key, loan, score, income, tier,
repayment, eligibility)` (the `repayment` argument is accepted but unused,
as in the source — persona products are not FOIR-capped). -/
def build_persona_loan_detail (loan_key : String) (loan : CatalogLoan)
    (score income : ℚ) (tier : ScoreTier) (repayment : RepaymentCapacity)
    (elig : Elig) : LoanDetail :=
  let effective_rate :=
    if 700 ≤ score then loan.rate_lo
    else if 550 ≤ score then loan.rate_lo + (loan.rate_hi - loan.rate_lo) * (40/100)
    else loan.rate_hi
  let income_cap := income * tier.max_exposure_multiplier
  let max_amount :=
    if 0 < income ∧ 0 < income_cap ∧ income_cap < (loan.amount_hi : ℚ)
    then income_cap else (loan.amount_hi : ℚ)
  let recommended := max (min (max_amount * (60/100)) (loan.amount_hi : ℚ)) (loan.amount_lo : ℚ)
  let tenure0 :=
    if 0 < tier.max_tenure_months then min loan.tenure_hi tier.max_tenure_months
    else loan.tenure_hi
  let suggested_tenure := if tenure0 = 0 then loan.tenure_lo else tenure0
  let total_interest := calculate_total_interest recommended effective_rate suggested_tenure
  { key := loan_key
    name := loan.name
    eligible := elig.eligible
    reasons := elig.reasons
    criteria_met := elig.criteria_met
    criteria_not_met := elig.criteria_not_met
    effective_rate := roundTo 2 effective_rate
    max_loan_amount := roundTo 0 max_amount
    recommended_amount := roundTo 0 recommended
    min_amount := (loan.amount_lo : ℚ)
    emi := calculate_emi recommended effective_rate suggested_tenure
    suggested_tenure := suggested_tenure
    total_interest := total_interest
    interest_saved_via_subsidy :=
      if loan.subsidy then
        roundTo 0 (max (calculate_total_interest recommended (effective_rate + 5)
          suggested_tenure - total_interest) 0)
      else 0
    collateral_required := loan.collateral
    subsidy := loan.subsidy }

/-- C6 witness: the amended theorem at P = 100000, rate = 12, n = 12,
with both side conditions discharged concretely. -/
theorem c6_witness :
    (generate_repayment_schedule 100000 12 12).length = 12 ∧
    ((generate_repayment_schedule 100000 12 12).getD 5 dummyEntry).balance ≤
      ((generate_repayment_schedule 100000 12 12).getD 0 dummyEntry).balance ∧
    ((generate_repayment_schedule 100000 12 12).getD 11 dummyEntry).balance < 1 := by
  have hE : calculate_emi 100000 12 12 = 888488/100 := by
    simp only [calculate_emi]
    rw [if_neg (by norm_num), if_neg (by norm_num)]
    have h := roundTo_eq_of_gt 2
      (q := (100000:ℚ) * (12/1200) * (1 + 12/1200) ^ 12 / ((1 + 12/1200) ^ 12 - 1)) 888487
      (by norm_num) (by norm_num)
    rw [h]; norm_num
  obtain ⟨hlen, hmono, hlast⟩ :=
    c6_schedule_props 100000 12 12 (by norm_num) (by norm_num) (by norm_num)
  refine ⟨hlen, hmono ?_ 0 5 (by norm_num) (by norm_num), hlast (by norm_num)⟩
  rw [hE]
  norm_num

/-! ## Stable descending sort (Python `list.sort(key=…, reverse=True)`)

Python's sort is stable; a stable sort is uniquely determined by the key,
so we model it by stable insertion: each element is placed after all
already-placed elements with key ≥ its own. -/

def insertDescBy {α : Type} (key : α → ℚ) (x : α) : List α → List α
  | [] => [x]
  | y :: ys => if key y < key x then x :: y :: ys else y :: insertDescBy key x ys

def sortDescBy {α : Type} (key : α → ℚ) (xs : List α) : List α :=
  xs.foldl (fun acc x => insertDescBy key x acc) []

theorem mem_insertDescBy {α : Type} (key : α → ℚ) (x a : α) :
    ∀ l : List α, a ∈ insertDescBy key x l ↔ a = x ∨ a ∈ l := by
  intro l
  induction l with
  | nil => simp [insertDescBy]
  | cons y ys ih =>
      unfold insertDescBy
      split
      · simp
      · simp only [List.mem_cons, ih]
        tauto

theorem length_insertDescBy {α : Type} (key : α → ℚ) (x : α) :
    ∀ l : List α, (insertDescBy key x l).length = l.length + 1 := by
  intro l
  induction l with
  | nil => rfl
  | cons y ys ih =>
      unfold insertDescBy
      split
      · rfl
      · simp [ih]

theorem chain'_insertDescBy {α : Type} (key : α → ℚ) (x : α) :
    ∀ l : List α, l.Chain' (fun a b => key b ≤ key a) →
      (insertDescBy key x l).Chain' (fun a b => key b ≤ key a) := by
  intro l
  induction l with
  | nil => intro _; simp [insertDescBy]
  | cons y ys ih =>
      intro h
      unfold insertDescBy
      split
      · rename_i hxy
        exact List.chain'_cons'.mpr ⟨fun z hz => by
          cases ys with
          | nil => simp at hz; subst hz; exact hxy.le
          | cons w ws =>
              simp at hz; subst hz
              exact hxy.le, h⟩
      · rename_i hxy
        push_neg at hxy
        refine List.chain'_cons'.mpr ⟨?_, ih h.tail⟩
        intro z hz
        cases ys with
        | nil =>
            simp [insertDescBy] at hz
            subst hz
            exact hxy
        | cons w ws =>
            unfold insertDescBy at hz
            by_cases hwx : key w < key x
            · rw [if_pos hwx] at hz
              simp at hz
              subst hz
              exact hxy
            · rw [if_neg hwx] at hz
              simp at hz
              subst hz
              exact (List.chain'_cons.mp h).1

theorem mem_sortDescBy {α : Type} (key : α → ℚ) (xs : List α) (a : α) :
    a ∈ sortDescBy key xs ↔ a ∈ xs := by
  have general : ∀ (ys : List α) (acc : List α),
      a ∈ ys.foldl (fun acc x => insertDescBy key x acc) acc ↔ a ∈ acc ∨ a ∈ ys := by
    intro ys
    induction ys with
    | nil => intro acc; simp
    | cons y ys ih =>
        intro acc
        rw [List.foldl_cons, ih, mem_insertDescBy]
        simp only [List.mem_cons]
        tauto
  rw [sortDescBy, general]
  simp

theorem length_sortDescBy {α : Type} (key : α → ℚ) (xs : List α) :
    (sortDescBy key xs).length = xs.length := by
  have general : ∀ (ys : List α) (acc : List α),
      (ys.foldl (fun acc x => insertDescBy key x acc) acc).length =
        acc.length + ys.length := by
    intro ys
    induction ys with
    | nil => intro acc; simp
    | cons y ys ih =>
        intro acc
        rw [List.foldl_cons, ih, length_insertDescBy]
        simp only [List.length_cons]
        omega
  rw [sortDescBy, general]
  simp

theorem chain'_sortDescBy {α : Type} (key : α → ℚ) (xs : List α) :
    (sortDescBy key xs).Chain' (fun a b => key b ≤ key a) := by
  have general : ∀ (ys : List α) (acc : List α),
      acc.Chain' (fun a b => key b ≤ key a) →
      (ys.foldl (fun acc x => insertDescBy key x acc) acc).Chain'
        (fun a b => key b ≤ key a) := by
    intro ys
    induction ys with
    | nil => intro acc h; simpa using h
    | cons y ys ih =>
        intro acc h
        rw [List.foldl_cons]
        exact ih _ (chain'_insertDescBy key y acc h)
  exact general xs [] (by simp)

/-! ## Loan comparison (`compare_loans`) -/

/-- The composite advantage score `compare_loans` attaches to each
eligible loan (note the no-collateral component scores 0.5, not 1). -/
def compositeScore (l : LoanDetail) : ℚ :=
  max 0 (30 - l.effective_rate) / 30 * (35/100) +
  min (l.max_loan_amount / 500000) 1 * (30/100) +
  (if l.subsidy then 1 else 0) * (20/100) +
  (if l.collateral_required then 0 else 1/2) * (15/100)

/-- `compare_loans(loans)`: keep eligible loans, attach the composite
score, sort descending (stably) and return the top 3. -/
def compare_loans (loans : List LoanDetail) : List (LoanDetail × ℚ) :=
  (sortDescBy (fun p => p.2)
    ((loans.filter (fun l => l.eligible)).map (fun l => (l, compositeScore l)))).take 3

/-- The composite score as described by the specification text: a full
0.15 weight for the no-collateral indicator (for comparison with the
implementation's `compositeScore`). -/
def specCompositeScore (l : LoanDetail) : ℚ :=
  max 0 (30 - l.effective_rate) / 30 * (35/100) +
  min (l.max_loan_amount / 500000) 1 * (30/100) +
  (if l.subsidy then 1 else 0) * (20/100) +
  (if l.collateral_required then 0 else 1) * (15/100)

/-- C9 (amended): `compare_loans` considers only loans with
`eligible = true`, assigns each the composite
`0.35·rate_desirability + 0.30·amount_desirability (amount capped at
500000) + 0.20·has_subsidy + 0.15·(0.5 if no collateral else 0)` — i.e.
the no-collateral indicator contributes 0.075, not the 0.15 the claim
states — and returns at most 3 loans sorted descending by that score. -/
theorem c9_compare_loans (loans : List LoanDetail) :
    (compare_loans loans).length ≤ 3 ∧
    (∀ p ∈ compare_loans loans, p.1 ∈ loans ∧ p.1.eligible = true ∧
      p.2 = max 0 (30 - p.1.effective_rate) / 30 * (35/100) +
        min (p.1.max_loan_amount / 500000) 1 * (30/100) +
        (if p.1.subsidy then 1 else 0) * (20/100) +
        (if p.1.collateral_required then 0 else 1/2) * (15/100)) ∧
    (compare_loans loans).Chain' (fun a b => b.2 ≤ a.2) := by
  refine ⟨?_, ?_, ?_⟩
  · unfold compare_loans
    exact List.length_take_le 3 _
  · intro p hp
    unfold compare_loans at hp
    have hp1 := List.mem_of_mem_take hp
    rw [mem_sortDescBy] at hp1
    obtain ⟨l, hl, rfl⟩ := List.mem_map.mp hp1
    obtain ⟨hl1, hl2⟩ := List.mem_filter.mp hl
    exact ⟨hl1, hl2, rfl⟩
  · unfold compare_loans
    exact (chain'_sortDescBy _ _).take 3

/-- A concrete eligible loan detail: rate 30, amount 0, no subsidy, no
collateral (used to separate the implemented composite from the spec's). -/
def plainLoanDetail : LoanDetail :=
  ⟨"plain", "Plain", true, [], [], [], 30, 0, 0, 0, 0, 0, 0, 0, false, false⟩

/-- C9 counterexample: on a no-collateral loan the engine's composite is
0.075 (= 0.5·0.15) while the claim's formula `0.15·no_collateral` gives
0.15; `compare_loans` attaches 3/40, not 3/20. -/
theorem c9_counterexample :
    compare_loans [plainLoanDetail] = [(plainLoanDetail, 3/40)] ∧
    specCompositeScore plainLoanDetail = 3/20 ∧
    (3/40 : ℚ) ≠ 3/20 := by
  refine ⟨?_, ?_, by norm_num⟩
  · unfold compare_loans compositeScore plainLoanDetail
    have hcomp : max (0:ℚ) (30 - 30) / 30 * (35/100) + min ((0:ℚ) / 500000) 1 * (30/100) +
        (if false = true then (1:ℚ) else 0) * (20/100) +
        (if false = true then (0:ℚ) else 1/2) * (15/100) = 3/40 := by
      norm_num
    simp only [List.filter, List.map, sortDescBy, insertDescBy, List.foldl, List.take]
    norm_num
  · unfold specCompositeScore plainLoanDetail
    norm_num

/-! ## Persona recommendations (`get_persona_loan_recommendations`) and
single-loan eligibility (`check_loan_eligibility`) -/

/-- The bundle returned by `get_persona_loan_recommendations`
(improvement-path list omitted as presentational). -/
structure PersonaRecommendations where
  score : ℚ
  persona : String
  tier : ScoreTier
  repayment_capacity : RepaymentCapacity
  eligible_loans : List LoanDetail
  ineligible_loans : List LoanDetail
  max_simultaneous_loans : ℕ
  total_eligible : ℕ
  estimated_monthly_income : ℚ
  pre_approval_status : String
  source : String

/-- `get_persona_loan_recommendations(persona, score, persona_data,
monthly_income)`: an unknown persona silently falls back to the
`general_no_bank` catalog (`PERSONA_LOANS.get(persona,
PERSONA_LOANS["general_no_bank"])`). -/
def get_persona_loan_recommendations (persona : String) (score : ℚ)
    (pdata : LoanQueryData) (monthly_income : ℚ) : PersonaRecommendations :=
  let tier := get_score_tier score
  let catalog := (PERSONA_LOANS.lookup persona).getD
    ((PERSONA_LOANS.lookup "general_no_bank").getD [])
  let income := if monthly_income ≤ 0 then estimate_income_from_persona persona pdata
    else monthly_income
  let repayment := analyze_repayment_capacity income 0 0 tier.foir_cap
  let details := catalog.map (fun kl =>
    build_persona_loan_detail kl.1 kl.2 score income tier repayment
      (check_persona_loan_eligibility kl.2 score pdata tier))
  let eligs := details.filter (fun l => l.eligible)
  { score := score
    persona := persona
    tier := tier
    repayment_capacity := repayment
    eligible_loans := sortDescBy (fun l => l.max_loan_amount) eligs
    ineligible_loans := details.filter (fun l => !l.eligible)
    max_simultaneous_loans := tier.max_simultaneous_loans
    total_eligible := eligs.length
    estimated_monthly_income := roundTo 0 income
    pre_approval_status := tier.pre_approval
    source := "alternative_profile" }

/-- Loan resolution at the head of `check_loan_eligibility`: `transaction`
looks in `TRANSACTION_LOANS`; `persona` (with a non-empty persona) looks
in that persona's sub-catalog, defaulting to an empty dict; anything else
resolves to nothing. -/
def lookupLoan (source persona loan_key : String) : Option CatalogLoan :=
  if source = "transaction" then TRANSACTION_LOANS.lookup loan_key
  else if source = "persona" ∧ persona ≠ "" then
    ((PERSONA_LOANS.lookup persona).getD []).lookup loan_key
  else none

/-- The computed loan terms inside a `check_loan_eligibility` result. -/
structure LoanComputed where
  effective_rate : ℚ
  max_eligible_amount : ℚ
  actual_amount : ℚ
  actual_tenure_months : ℕ
  emi : ℚ
  total_interest : ℚ
  total_payable : ℚ
  amount_ok : Bool
deriving Repr, DecidableEq

/-- The dict returned by `check_loan_eligibility`.  Reason and
gap-analysis strings are modelled as fixed tags (the source detects check
identity by substring search over its own messages — "Score"+"below",
"income"+"below", "Loan Tier"/"Very Poor" — each of which matches exactly
the corresponding tagged reason and nothing else); `loan_details` is
`none` when the source leaves the empty dict; improvement-step strings
are omitted as presentational. -/
structure CheckResult where
  eligible : Bool
  verdict : String
  loan_name : String
  reasons_pass : List String
  reasons_fail : List String
  gap_analysis : List String
  loan_details : Option LoanComputed
  repayment_capacity : Option RepaymentCapacity

/-- `check_loan_eligibility(loan_key, source, persona, score,
monthly_income, monthly_expenses, existing_emi, persona_data,
desired_amount, desired_tenure)`. -/
def check_loan_eligibility (loan_key source persona : String) (score : ℚ)
    (monthly_income monthly_expenses existing_emi : ℚ) (pdata : LoanQueryData)
    (desired_amount : ℚ) (desired_tenure : ℕ) : CheckResult :=
  match lookupLoan source persona loan_key with
  | none =>
      { eligible := false
        verdict := "LOAN_NOT_FOUND"
        loan_name := loan_key
        reasons_pass := []
        reasons_fail := ["loan_not_found"]
        gap_analysis := []
        loan_details := none
        repayment_capacity := none }
  | some loan =>
      let tier := get_score_tier score
      let income := if monthly_income ≤ 0 ∧ source = "persona" ∧ persona ≠ "" then
        estimate_income_from_persona persona pdata else monthly_income
      let repayment := analyze_repayment_capacity income monthly_expenses existing_emi
        tier.foir_cap
      let scoreFail := score < loan.min_score
      let incomeFail := source = "transaction" ∧ 0 < loan.min_income ∧
        income < loan.min_income
      let incomePass := source = "transaction" ∧ 0 < loan.min_income ∧
        loan.min_income ≤ income
      let tierFail := tier.max_simultaneous_loans = 0
      let critsNotMet := loan.eligibility_criteria.filter (fun c => !(pdata.truthy c))
      let reasons_pass :=
        (if ¬ scoreFail then ["score_ok"] else []) ++
        (if incomePass then ["income_ok"] else []) ++
        (if ¬ tierFail then ["tier_ok"] else []) ++
        (if repayment.verdict = "NOT_ELIGIBLE" then []
          else if repayment.verdict = "MICRO_ONLY" then ["repayment_limited"]
          else ["repayment_ok"]) ++
        (loan.eligibility_criteria.filter pdata.truthy).map (fun c => "criterion_met:" ++ c)
      let reasons_fail0 :=
        (if scoreFail then ["score_below_minimum"] else []) ++
        (if incomeFail then ["income_below_minimum"] else []) ++
        (if tierFail then ["tier_blocked"] else []) ++
        (if repayment.verdict = "NOT_ELIGIBLE" then ["repayment_not_eligible"] else []) ++
        critsNotMet.map (fun c => "criterion_missing:" ++ c)
      let gap0 :=
        (if scoreFail then ["Credit Score"] else []) ++
        (if incomeFail then ["Monthly Income"] else []) ++
        (if tierFail then ["Loan Tier Access"] else []) ++
        (if repayment.verdict = "NOT_ELIGIBLE" then ["Repayment Capacity"] else [])
      let verdict0 :=
        if tierFail then "NOT_ELIGIBLE"
        else if scoreFail ∧ incomeFail then "NOT_ELIGIBLE"
        else if scoreFail ∨ incomeFail then "NOT_ELIGIBLE"
        else if repayment.verdict = "NOT_ELIGIBLE" then "NOT_ELIGIBLE"
        else if repayment.verdict = "MICRO_ONLY" then "MICRO_ONLY"
        else if reasons_fail0 ≠ [] then "ELIGIBLE_WITH_CAUTION"
        else "ELIGIBLE"
      if verdict0 = "ELIGIBLE" ∨ verdict0 = "ELIGIBLE_WITH_CAUTION" ∨
          verdict0 = "MICRO_ONLY" then
        let effective_rate :=
          if 750 ≤ score then loan.rate_lo
          else if 650 ≤ score then loan.rate_lo + (loan.rate_hi - loan.rate_lo) * (30/100)
          else if 500 ≤ score then loan.rate_lo + (loan.rate_hi - loan.rate_lo) * (60/100)
          else loan.rate_hi
        let max_by_product := (loan.amount_hi : ℚ)
        let max_by_income := if 0 < income then income * tier.max_exposure_multiplier
          else max_by_product
        let max_by_emi := if 0 < repayment.max_new_emi then
          max_loan_from_emi repayment.max_new_emi effective_rate
            (if 0 < desired_tenure then desired_tenure
              else (loan.tenure_lo + loan.tenure_hi) / 2)
          else 0
        let max_amount := max (if 0 < max_by_emi then
          min (min max_by_product max_by_income) max_by_emi
          else min max_by_product max_by_income) 0
        let actual_amount := max (if 0 < desired_amount ∧ desired_amount ≤ max_amount
          then desired_amount else min (max_amount * (80/100)) max_by_product) 0
        let tenure0 := if 0 < desired_tenure then desired_tenure else loan.tenure_hi
        let tenure1 := if 0 < tier.max_tenure_months then
          min tenure0 tier.max_tenure_months else tenure0
        let actual_tenure := min (max tenure1 loan.tenure_lo) loan.tenure_hi
        let emi := calculate_emi actual_amount effective_rate actual_tenure
        let total_interest := calculate_total_interest actual_amount effective_rate
          actual_tenure
        let amountProblem := 0 < desired_amount ∧ max_amount < desired_amount
        let emiProblem := repayment.max_new_emi < emi ∧ 0 < repayment.max_new_emi
        { eligible := decide (reasons_fail0 = [] ∧ ¬ amountProblem)
          verdict := if amountProblem ∧ verdict0 = "ELIGIBLE" then
            "ELIGIBLE_WITH_CAUTION" else verdict0
          loan_name := loan.name
          reasons_pass := reasons_pass
          reasons_fail := reasons_fail0 ++
            (if amountProblem then ["amount_exceeds_max"] else []) ++
            (if emiProblem then ["emi_exceeds_capacity"] else [])
          gap_analysis := gap0 ++ (if amountProblem then ["Loan Amount"] else []) ++
            (if emiProblem then ["EMI Affordability"] else [])
          loan_details := some
            { effective_rate := roundTo 2 effective_rate
              max_eligible_amount := roundTo 0 max_amount
              actual_amount := roundTo 0 actual_amount
              actual_tenure_months := actual_tenure
              emi := roundTo 2 emi
              total_interest := roundTo 2 total_interest
              total_payable := roundTo 2 (actual_amount + total_interest)
              amount_ok := decide (¬ amountProblem) }
          repayment_capacity := some repayment }
      else
        { eligible := decide (reasons_fail0 = [])
          verdict := verdict0
          loan_name := loan.name
          reasons_pass := reasons_pass
          reasons_fail := reasons_fail0
          gap_analysis := gap0
          loan_details := none
          repayment_capacity := some repayment }

/-! ## C10: persona-path recommended amount vs. income-capped maximum -/

theorem build_detail_bounds (k : String) (loan : CatalogLoan) (score income : ℚ)
    (t : ScoreTier) (rep : RepaymentCapacity) (elig : Elig)
    (hlohi : (loan.amount_lo : ℚ) ≤ (loan.amount_hi : ℚ))
    (hmult : 0 ≤ t.max_exposure_multiplier) :
    (loan.amount_lo : ℚ) ≤
      (build_persona_loan_detail k loan score income t rep elig).recommended_amount ∧
    (0 < income * t.max_exposure_multiplier →
      income * t.max_exposure_multiplier < (loan.amount_lo : ℚ) →
      (build_persona_loan_detail k loan score income t rep elig).max_loan_amount ≤
        (build_persona_loan_detail k loan score income t rep elig).recommended_amount ∧
      (income * t.max_exposure_multiplier < (loan.amount_lo : ℚ) - 1/2 →
        (build_persona_loan_detail k loan score income t rep elig).max_loan_amount <
          (build_persona_loan_detail k loan score income t rep elig).recommended_amount)) := by
  have hrec : (build_persona_loan_detail k loan score income t rep elig).recommended_amount
      = roundTo 0 (max (min
          ((if 0 < income ∧ 0 < income * t.max_exposure_multiplier ∧
              income * t.max_exposure_multiplier < (loan.amount_hi : ℚ)
            then income * t.max_exposure_multiplier else (loan.amount_hi : ℚ)) * (60/100))
          (loan.amount_hi : ℚ)) (loan.amount_lo : ℚ)) := rfl
  have hmax : (build_persona_loan_detail k loan score income t rep elig).max_loan_amount
      = roundTo 0 (if 0 < income ∧ 0 < income * t.max_exposure_multiplier ∧
          income * t.max_exposure_multiplier < (loan.amount_hi : ℚ)
        then income * t.max_exposure_multiplier else (loan.amount_hi : ℚ)) := rfl
  constructor
  · rw [hrec]
    exact le_roundTo_zero _ (le_max_right _ _)
  · intro hcappos hcaplt
    have hinc : 0 < income := by
      by_contra hle
      push_neg at hle
      have : income * t.max_exposure_multiplier ≤ 0 := mul_nonpos_of_nonpos_of_nonneg hle hmult
      linarith
    have hcond : 0 < income ∧ 0 < income * t.max_exposure_multiplier ∧
        income * t.max_exposure_multiplier < (loan.amount_hi : ℚ) :=
      ⟨hinc, hcappos, lt_of_lt_of_le hcaplt hlohi⟩
    have hsmall : income * t.max_exposure_multiplier * (60/100) ≤
        income * t.max_exposure_multiplier := by nlinarith
    have hrec' : (build_persona_loan_detail k loan score income t rep elig).recommended_amount
        = (loan.amount_lo : ℚ) := by
      rw [hrec, if_pos hcond]
      rw [min_eq_left (by linarith), max_eq_right (by linarith)]
      exact roundTo_zero_intCast loan.amount_lo
    have hmax' : (build_persona_loan_detail k loan score income t rep elig).max_loan_amount
        = roundTo 0 (income * t.max_exposure_multiplier) := by
      rw [hmax, if_pos hcond]
    constructor
    · rw [hrec', hmax']
      exact roundTo_zero_le _ hcaplt.le
    · intro hgap
      rw [hrec', hmax']
      have h1 := roundTo_le 0 (income * t.max_exposure_multiplier)
      have h2 : (1:ℚ) / (2 * 10 ^ 0) = 1/2 := by norm_num
      rw [h2] at h1
      linarith

/-- C10 (amended): for every persona loan product in the catalog and all
inputs, the built detail's `recommended_amount` is at least the product's
minimum amount; consequently, when the (positive) income-derived cap is
below the product minimum, `recommended_amount` is at least
`max_loan_amount`, and strictly exceeds it as soon as the cap is more
than 0.5 below the minimum (at a gap under 0.5 the rounding of
`max_loan_amount` can close the difference — see the counterexample). -/
theorem c10_persona_detail (p k : String) (catalog : List (String × CatalogLoan))
    (loan : CatalogLoan) (hp : (p, catalog) ∈ PERSONA_LOANS)
    (hk : (k, loan) ∈ catalog) (score income : ℚ) (t : ScoreTier)
    (ht : t ∈ SCORE_TIERS) (rep : RepaymentCapacity) (elig : Elig) :
    (loan.amount_lo : ℚ) ≤
      (build_persona_loan_detail k loan score income t rep elig).recommended_amount ∧
    (0 < income * t.max_exposure_multiplier →
      income * t.max_exposure_multiplier < (loan.amount_lo : ℚ) →
      (build_persona_loan_detail k loan score income t rep elig).max_loan_amount ≤
        (build_persona_loan_detail k loan score income t rep elig).recommended_amount ∧
      (income * t.max_exposure_multiplier < (loan.amount_lo : ℚ) - 1/2 →
        (build_persona_loan_detail k loan score income t rep elig).max_loan_amount <
          (build_persona_loan_detail k loan score income t rep elig).recommended_amount)) := by
  have hmult : 0 ≤ t.max_exposure_multiplier := by
    fin_cases ht <;>
      norm_num [tierExcellent, tierGood, tierFair, tierPoor, tierVeryPoor]
  have hZ : ∀ pc ∈ PERSONA_LOANS, ∀ kl ∈ pc.2, kl.2.amount_lo ≤ kl.2.amount_hi := by
    decide
  have hlohi : (loan.amount_lo : ℚ) ≤ (loan.amount_hi : ℚ) :=
    Int.cast_le.mpr (hZ (p, catalog) hp (k, loan) hk)
  exact build_detail_bounds k loan score income t rep elig hlohi hmult

/-- The farmer KCC product (as listed in `PERSONA_LOANS`). -/
def kccLoan : CatalogLoan :=
  ⟨"Kisan Credit Card (KCC)", "Agriculture", 450, 0, 25000, 300000, 4, 7, 12, 60,
    false, true, ["owns_land", "crops_per_year"]⟩

def dummyRepayment : RepaymentCapacity := ⟨0, 0, 0, 0, 0, 0, 0, 0, 0, [], ""⟩

def dummyElig : Elig := ⟨true, [], [], []⟩

/-- C10 counterexample: for the farmer KCC product (minimum 25000) at
income 12499.9 in the fair tier (multiplier 2), the income cap is 24999.8
< 25000, yet the returned detail has `max_loan_amount` rounded up to
25000 = `recommended_amount` — `recommended_amount` does *not* exceed
`max_loan_amount`. -/
theorem c10_counterexample :
    (∃ pc ∈ PERSONA_LOANS, ("kcc", kccLoan) ∈ pc.2) ∧
    (0 < (124999/10 : ℚ) * tierFair.max_exposure_multiplier ∧
      (124999/10 : ℚ) * tierFair.max_exposure_multiplier < (kccLoan.amount_lo : ℚ)) ∧
    (build_persona_loan_detail "kcc" kccLoan 600 (124999/10) tierFair dummyRepayment
      dummyElig).recommended_amount = 25000 ∧
    (build_persona_loan_detail "kcc" kccLoan 600 (124999/10) tierFair dummyRepayment
      dummyElig).max_loan_amount = 25000 ∧
    ¬ (build_persona_loan_detail "kcc" kccLoan 600 (124999/10) tierFair dummyRepayment
        dummyElig).max_loan_amount <
      (build_persona_loan_detail "kcc" kccLoan 600 (124999/10) tierFair dummyRepayment
        dummyElig).recommended_amount := by
  have hcond : (0:ℚ) < 124999/10 ∧ (0:ℚ) < 124999/10 * tierFair.max_exposure_multiplier ∧
      (124999/10 : ℚ) * tierFair.max_exposure_multiplier < ((kccLoan.amount_hi : ℤ) : ℚ) := by
    norm_num [tierFair, kccLoan]
  have hrec : (build_persona_loan_detail "kcc" kccLoan 600 (124999/10) tierFair
      dummyRepayment dummyElig).recommended_amount = 25000 := by
    show roundTo 0 (max (min
        ((if (0:ℚ) < 124999/10 ∧ (0:ℚ) < 124999/10 * tierFair.max_exposure_multiplier ∧
            (124999/10 : ℚ) * tierFair.max_exposure_multiplier < (kccLoan.amount_hi : ℚ)
          then (124999/10 : ℚ) * tierFair.max_exposure_multiplier
          else (kccLoan.amount_hi : ℚ)) * (60/100))
        (kccLoan.amount_hi : ℚ)) (kccLoan.amount_lo : ℚ)) = 25000
    rw [if_pos (by norm_num [tierFair, kccLoan])]
    have heval : max (min ((124999/10 : ℚ) * tierFair.max_exposure_multiplier * (60/100))
        (kccLoan.amount_hi : ℚ)) (kccLoan.amount_lo : ℚ) = 25000 := by
      norm_num [tierFair, kccLoan]
    rw [heval]
    have := roundTo_eq_of_lt 0 (q := (25000:ℚ)) 25000 (by norm_num) (by norm_num)
    rw [this]
    norm_num
  have hmax : (build_persona_loan_detail "kcc" kccLoan 600 (124999/10) tierFair
      dummyRepayment dummyElig).max_loan_amount = 25000 := by
    show roundTo 0 (if (0:ℚ) < 124999/10 ∧
        (0:ℚ) < 124999/10 * tierFair.max_exposure_multiplier ∧
        (124999/10 : ℚ) * tierFair.max_exposure_multiplier < (kccLoan.amount_hi : ℚ)
      then (124999/10 : ℚ) * tierFair.max_exposure_multiplier
      else (kccLoan.amount_hi : ℚ)) = 25000
    rw [if_pos (by norm_num [tierFair, kccLoan])]
    have heval : (124999/10 : ℚ) * tierFair.max_exposure_multiplier = 124999/5 := by
      norm_num [tierFair]
    rw [heval]
    have := roundTo_eq_of_gt 0 (q := (124999/5:ℚ)) 24999 (by norm_num) (by norm_num)
    rw [this]
    norm_num
  refine ⟨⟨("farmer", (PERSONA_LOANS.lookup "farmer").getD []), ?_, ?_⟩,
    ⟨by norm_num [tierFair], by norm_num [tierFair, kccLoan]⟩, hrec, hmax, ?_⟩
  · simp [PERSONA_LOANS]
  · simp [PERSONA_LOANS, kccLoan]
  · rw [hrec, hmax]
    norm_num

/-- C10 witness: the amended theorem at the KCC product, fair tier,
income 10000 (cap 20000 < product minimum 25000). -/
theorem c10_witness :
    ((kccLoan.amount_lo : ℚ) ≤ (build_persona_loan_detail "kcc" kccLoan 600 10000
      tierFair dummyRepayment dummyElig).recommended_amount) ∧
    ((build_persona_loan_detail "kcc" kccLoan 600 10000 tierFair dummyRepayment
        dummyElig).max_loan_amount <
      (build_persona_loan_detail "kcc" kccLoan 600 10000 tierFair dummyRepayment
        dummyElig).recommended_amount) := by
  have h := c10_persona_detail "farmer" "kcc" ((PERSONA_LOANS.lookup "farmer").getD [])
    kccLoan (by simp [PERSONA_LOANS]) (by simp [PERSONA_LOANS, kccLoan]) 600 10000
    tierFair (by simp [SCORE_TIERS]) dummyRepayment dummyElig
  refine ⟨h.1, ?_⟩
  have h2 := h.2 (by norm_num [tierFair]) (by norm_num [tierFair, kccLoan])
  exact h2.2 (by norm_num [tierFair, kccLoan])

/-! ## PersonaScoreEngine (`alternative_profiles.py`)

The input dict is modelled as a structure of `Option` fields (`none` = key
absent), read through `Option.getD` exactly as the Python `.get(key,
default)` calls.  Each criterion scorer returns its (clipped, 4-decimal
rounded) score; label/detail display strings are omitted. -/

structure PersonaData where
  owns_land : Option Bool := none
  land_acres : Option ℚ := none
  years_on_land : Option ℤ := none
  seasons_active : Option ℤ := none
  crops_per_year : Option ℤ := none
  yield_trend : Option String := none
  has_pm_kisan : Option Bool := none
  has_crop_insurance : Option Bool := none
  has_soil_health_card : Option Bool := none
  kcc_holder : Option Bool := none
  sells_at_mandi : Option Bool := none
  has_warehouse_receipt : Option Bool := none
  uses_enam : Option Bool := none
  avg_trips_per_month : Option ℤ := none
  score_type : Option String := none
  score_value : Option ℚ := none
  education_level : Option String := none
  backlog_count : Option ℤ := none
  scholarships_received : Option ℤ := none
  total_scholarship_value : Option ℚ := none
  merit_based : Option Bool := none
  cert_count : Option ℤ := none
  has_govt_certification : Option Bool := none
  platform_certs : Option (List String) := none
  attendance_pct : Option ℚ := none
  has_part_time : Option Bool := none
  monthly_earnings : Option ℚ := none
  months_active : Option ℤ := none
  institution_tier : Option ℤ := none
  branch_demand : Option String := none
  has_internship : Option Bool := none
  avg_daily_income : Option ℚ := none
  working_days_per_month : Option ℤ := none
  seasonal_variation : Option String := none
  pays_rent : Option Bool := none
  rent_amount : Option ℚ := none
  on_time_pct : Option ℚ := none
  months_of_history : Option ℤ := none
  bills_per_year : Option ℤ := none
  has_electricity : Option Bool := none
  has_water : Option Bool := none
  has_gas : Option Bool := none
  savings_method : Option String := none
  monthly_savings : Option ℚ := none
  months_saving : Option ℤ := none
  is_shg_member : Option Bool := none
  references_count : Option ℤ := none
  is_group_member : Option Bool := none
  years_in_community : Option ℤ := none
  has_local_business_reference : Option Bool := none
  recharge_frequency : Option String := none
  has_smartphone : Option Bool := none
  uses_upi_basic : Option Bool := none
  avg_monthly_recharge : Option ℚ := none
  years_in_trade : Option ℤ := none
  same_location : Option Bool := none
  has_license : Option Bool := none
  household_income : Option ℚ := none
  household_expenses : Option ℚ := none
  manages_budget : Option Bool := none
  dependents : Option ℤ := none
  has_enterprise : Option Bool := none
  monthly_revenue : Option ℚ := none
  has_aadhaar : Option Bool := none
  has_pan : Option Bool := none
  has_voter_id : Option Bool := none
  has_ration_card : Option Bool := none
  q1_financial_planning : Option ℤ := none
  q2_risk_awareness : Option ℤ := none
  q3_goal_orientation : Option ℤ := none
  q4_repayment_intent : Option ℤ := none
  q5_responsibility : Option ℤ := none

/-- An empty input dict. -/
def emptyPersonaData : PersonaData := {}

/-- `np.clip(x, 0, 1)`. -/
def clip01 (x : ℚ) : ℚ := min (max x 0) 1

def score_land_asset (d : PersonaData) : ℚ :=
  roundTo 4 (clip01 ((if d.owns_land.getD false then 6/10 else 3/10) * (40/100) +
    min (d.land_acres.getD 0 / 5) 1 * (30/100) +
    min (((d.years_on_land.getD 0 : ℤ) : ℚ) / 10) 1 * (30/100)))

def score_crop_consistency (d : PersonaData) : ℚ :=
  roundTo 4 (clip01 (min (((d.seasons_active.getD 0 : ℤ) : ℚ) / 6) 1 * (35/100) +
    min (((d.crops_per_year.getD 0 : ℤ) : ℚ) / 3) 1 * (30/100) +
    (if d.yield_trend.getD "stable" = "up" then 1
      else if d.yield_trend.getD "stable" = "stable" then 7/10
      else if d.yield_trend.getD "stable" = "down" then 3/10 else 1/2) * (35/100)))

def score_subsidy_linkage (d : PersonaData) : ℚ :=
  roundTo 4 (clip01 (min ((((if d.has_pm_kisan.getD false then 1 else 0) +
    (if d.has_crop_insurance.getD false then 1 else 0) +
    (if d.has_soil_health_card.getD false then 1 else 0) +
    (if d.kcc_holder.getD false then 1 else 0) : ℕ) : ℚ) / 3) 1))

def score_market_engagement (d : PersonaData) : ℚ :=
  roundTo 4 (clip01 ((if d.sells_at_mandi.getD false then 3/10 else 0) +
    (if d.has_warehouse_receipt.getD false then 25/100 else 0) +
    (if d.uses_enam.getD false then 2/10 else 0) +
    min (((d.avg_trips_per_month.getD 0 : ℤ) : ℚ) / 4) 1 * (25/100)))

def score_academic_performance (d : PersonaData) : ℚ :=
  roundTo 4 (clip01 ((if d.score_type.getD "percentage" = "cgpa" then
      min (d.score_value.getD 0 / 10) 1 else min (d.score_value.getD 0 / 100) 1) -
    min (((d.backlog_count.getD 0 : ℤ) : ℚ) * (1/10)) (4/10) +
    (if d.education_level.getD "school" = "school" then 0
      else if d.education_level.getD "school" = "ug" then 5/100
      else if d.education_level.getD "school" = "pg" then 1/10 else 0)))

def score_scholarship_history (d : PersonaData) : ℚ :=
  roundTo 4 (clip01 (min (((d.scholarships_received.getD 0 : ℤ) : ℚ) / 3) 1 * (40/100) +
    min (d.total_scholarship_value.getD 0 / 50000) 1 * (45/100) +
    (if d.merit_based.getD false then 15/100 else 0)))

def score_skill_certifications (d : PersonaData) : ℚ :=
  roundTo 4 (clip01 (min (((d.cert_count.getD 0 : ℤ) : ℚ) / 5) 1 * (50/100) +
    min (((d.platform_certs.getD []).length : ℚ) / 3) 1 * (3/10) +
    (if d.has_govt_certification.getD false then 2/10 else 0)))

def score_attendance_discipline (d : PersonaData) : ℚ :=
  roundTo 4 (clip01 (min (d.attendance_pct.getD 0 / 90) 1))

def score_part_time_income (d : PersonaData) : ℚ :=
  if ¬ d.has_part_time.getD false then 3/10
  else roundTo 4 (clip01 (min (d.monthly_earnings.getD 0 / 10000) 1 * (50/100) +
    min (((d.months_active.getD 0 : ℤ) : ℚ) / 6) 1 * (50/100)))

def score_future_potential (d : PersonaData) : ℚ :=
  roundTo 4 (clip01 ((if d.institution_tier.getD 4 = 1 then 1
      else if d.institution_tier.getD 4 = 2 then 75/100
      else if d.institution_tier.getD 4 = 3 then 50/100
      else if d.institution_tier.getD 4 = 4 then 3/10 else 3/10) * (45/100) +
    (if d.branch_demand.getD "medium" = "high" then 1
      else if d.branch_demand.getD "medium" = "medium" then 6/10
      else if d.branch_demand.getD "medium" = "low" then 3/10 else 1/2) * (40/100) +
    (if d.has_internship.getD false then 15/100 else 0)))

def score_daily_income_consistency (d : PersonaData) : ℚ :=
  roundTo 4 (clip01 (min (d.avg_daily_income.getD 0 *
      ((d.working_days_per_month.getD 0 : ℤ) : ℚ) / 15000) 1 * (35/100) +
    min (((d.working_days_per_month.getD 0 : ℤ) : ℚ) / 26) 1 * (35/100) +
    (if d.seasonal_variation.getD "medium" = "low" then 1
      else if d.seasonal_variation.getD "medium" = "medium" then 6/10
      else if d.seasonal_variation.getD "medium" = "high" then 3/10 else 1/2) * (30/100)))

def score_rental_discipline (d : PersonaData) : ℚ :=
  if ¬ d.pays_rent.getD false then 4/10
  else roundTo 4 (clip01 (min (d.rent_amount.getD 0 / 5000) 1 * (15/100) +
    d.on_time_pct.getD 0 / 100 * (55/100) +
    min (((d.months_of_history.getD 0 : ℤ) : ℚ) / 12) 1 * (30/100)))

def score_utility_discipline (d : PersonaData) : ℚ :=
  roundTo 4 (clip01 (min (((d.bills_per_year.getD 0 : ℤ) : ℚ) / 12) 1 * (30/100) +
    d.on_time_pct.getD 80 / 100 * (45/100) +
    min ((((if d.has_electricity.getD false then 1 else 0) +
      (if d.has_water.getD false then 1 else 0) +
      (if d.has_gas.getD false then 1 else 0) : ℕ) : ℚ) / 2) 1 * (25/100)))

def score_savings_habit (d : PersonaData) : ℚ :=
  roundTo 4 (clip01 ((if d.savings_method.getD "none" = "shg" then 9/10
      else if d.savings_method.getD "none" = "chit_fund" then 8/10
      else if d.savings_method.getD "none" = "post_office" then 85/100
      else if d.savings_method.getD "none" = "cash_at_home" then 5/10
      else if d.savings_method.getD "none" = "gold" then 6/10
      else if d.savings_method.getD "none" = "bank" then 9/10
      else if d.savings_method.getD "none" = "none" then 1/10 else 3/10) * (30/100) +
    min (d.monthly_savings.getD 0 / 3000) 1 * (30/100) +
    min (((d.months_saving.getD 0 : ℤ) : ℚ) / 12) 1 * (30/100) +
    (if d.is_shg_member.getD false then 1/10 else 0)))

def score_community_trust (d : PersonaData) : ℚ :=
  roundTo 4 (clip01 (min (((d.references_count.getD 0 : ℤ) : ℚ) / 3) 1 * (35/100) +
    (if d.is_group_member.getD false then 25/100 else 0) +
    min (((d.years_in_community.getD 0 : ℤ) : ℚ) / 5) 1 * (30/100) +
    (if d.has_local_business_reference.getD false then 1/10 else 0)))

def score_mobile_behaviour (d : PersonaData) : ℚ :=
  roundTo 4 (clip01 ((if d.recharge_frequency.getD "irregular" = "daily" then 5/10
      else if d.recharge_frequency.getD "irregular" = "weekly" then 7/10
      else if d.recharge_frequency.getD "irregular" = "monthly" then 9/10
      else if d.recharge_frequency.getD "irregular" = "irregular" then 3/10
      else 3/10) * (40/100) +
    (if d.has_smartphone.getD false then 2/10 else 0) +
    (if d.uses_upi_basic.getD false then 15/100 else 0) +
    min (d.avg_monthly_recharge.getD 0 / 500) 1 * (25/100)))

def score_years_in_trade (d : PersonaData) : ℚ :=
  roundTo 4 (clip01 (min (((d.years_in_trade.getD 0 : ℤ) : ℚ) / 10) 1 * (75/100) +
    (if d.same_location.getD false then 15/100 else 0) +
    (if d.has_license.getD false then 1/10 else 0)))

def score_household_budgeting (d : PersonaData) : ℚ :=
  roundTo 4 (clip01 ((if 0 < d.household_income.getD 0 then
      clip01 ((d.household_income.getD 0 - d.household_expenses.getD 0) /
        d.household_income.getD 0)
      else 2/10) * (65/100) +
    (if d.manages_budget.getD false then 2/10 else 0) +
    (if d.manages_budget.getD false then
      min (((d.dependents.getD 0 : ℤ) : ℚ) / 5) 1 * (15/100) else 0)))

def score_micro_enterprise (d : PersonaData) : ℚ :=
  if ¬ d.has_enterprise.getD false then 25/100
  else roundTo 4 (clip01 (min (d.monthly_revenue.getD 0 / 10000) 1 * (50/100) +
    min (((d.months_active.getD 0 : ℤ) : ℚ) / 12) 1 * (40/100) + 1/10))

def score_id_verification (d : PersonaData) : ℚ :=
  roundTo 4 (clip01 (min ((((if d.has_aadhaar.getD false then 1 else 0) +
      (if d.has_pan.getD false then 1 else 0) +
      (if d.has_voter_id.getD false then 1 else 0) +
      (if d.has_ration_card.getD false then 1 else 0) : ℕ) : ℚ) / 3) 1 * (80/100) +
    (if d.has_aadhaar.getD false then 2/10 else 0)))

def score_psychometric (d : PersonaData) : ℚ :=
  roundTo 4 (clip01 (((((d.q1_financial_planning.getD 3 +
    d.q2_risk_awareness.getD 3 + d.q3_goal_orientation.getD 3 +
    d.q4_repayment_intent.getD 3 + d.q5_responsibility.getD 3 : ℤ) : ℚ) / 5) - 1) / 4))

/-! ## Persona weight tables and scoring (`PERSONAS`,
`CRITERIA_REGISTRY`, `compute_persona_score`) -/

def farmerWeights : List (String × ℚ) :=
  [("land_asset", 20/100), ("crop_consistency", 20/100), ("subsidy_linkage", 15/100),
   ("market_engagement", 15/100), ("community_trust", 10/100),
   ("utility_discipline", 10/100), ("mobile_behaviour", 10/100)]

def studentWeights : List (String × ℚ) :=
  [("academic_performance", 25/100), ("scholarship_history", 15/100),
   ("skill_certifications", 15/100), ("attendance_discipline", 10/100),
   ("part_time_income", 10/100), ("community_trust", 10/100),
   ("mobile_behaviour", 10/100), ("future_potential", 5/100)]

def streetVendorWeights : List (String × ℚ) :=
  [("daily_income_consistency", 20/100), ("rental_discipline", 15/100),
   ("utility_discipline", 15/100), ("savings_habit", 15/100),
   ("community_trust", 15/100), ("mobile_behaviour", 10/100),
   ("years_in_trade", 10/100)]

def homemakerWeights : List (String × ℚ) :=
  [("household_budgeting", 20/100), ("savings_habit", 20/100),
   ("community_trust", 15/100), ("utility_discipline", 15/100),
   ("micro_enterprise", 10/100), ("mobile_behaviour", 10/100),
   ("skill_certifications", 10/100)]

def generalNoBankWeights : List (String × ℚ) :=
  [("mobile_behaviour", 20/100), ("utility_discipline", 20/100),
   ("rental_discipline", 15/100), ("community_trust", 15/100),
   ("savings_habit", 15/100), ("id_verification", 10/100), ("psychometric", 5/100)]

/-- The `PERSONAS` table: persona key → criteria weights. -/
def PERSONAS : List (String × List (String × ℚ)) :=
  [("farmer", farmerWeights), ("student", studentWeights),
   ("street_vendor", streetVendorWeights), ("homemaker", homemakerWeights),
   ("general_no_bank", generalNoBankWeights)]

/-- `CRITERIA_REGISTRY`: criterion name → scorer function. -/
def CRITERIA_REGISTRY : List (String × (PersonaData → ℚ)) :=
  [("land_asset", score_land_asset), ("crop_consistency", score_crop_consistency),
   ("subsidy_linkage", score_subsidy_linkage),
   ("market_engagement", score_market_engagement),
   ("academic_performance", score_academic_performance),
   ("scholarship_history", score_scholarship_history),
   ("skill_certifications", score_skill_certifications),
   ("attendance_discipline", score_attendance_discipline),
   ("part_time_income", score_part_time_income),
   ("future_potential", score_future_potential),
   ("daily_income_consistency", score_daily_income_consistency),
   ("rental_discipline", score_rental_discipline),
   ("utility_discipline", score_utility_discipline),
   ("savings_habit", score_savings_habit), ("community_trust", score_community_trust),
   ("mobile_behaviour", score_mobile_behaviour),
   ("years_in_trade", score_years_in_trade),
   ("household_budgeting", score_household_budgeting),
   ("micro_enterprise", score_micro_enterprise),
   ("id_verification", score_id_verification), ("psychometric", score_psychometric)]

/-- The scoring loop body of `compute_persona_score`: for each weighted
criterion with a registered scorer, record (criterion, weight, score). -/
def criteriaEntries (weights : List (String × ℚ)) (d : PersonaData) :
    List (String × ℚ × ℚ) :=
  weights.filterMap (fun cw => (CRITERIA_REGISTRY.lookup cw.1).map
    (fun f => (cw.1, cw.2, f d)))

/-- `filled_count`: criteria whose score exceeds 0.20. -/
def countFilled : List (String × ℚ × ℚ) → ℕ
  | [] => 0
  | e :: es => (if 1/5 < e.2.2 then 1 else 0) + countFilled es

/-- The dict returned by `compute_persona_score` (persona label and
grade colour omitted; the breakdown keeps criterion → score). -/
structure PersonaScoreResult where
  persona : String
  base_score_100 : ℚ
  trust_score : ℚ
  grade : String
  confidence : ℚ
  criteria_breakdown : List (String × ℚ)
  criteria_count : ℕ
  filled_count : ℕ
deriving Repr, DecidableEq

/-- `compute_persona_score(persona, data)`: raises `ValueError` (modelled
as `Except.error`) on an unknown persona key. -/
def computePersonaScore (persona : String) (d : PersonaData) :
    Except String PersonaScoreResult :=
  match PERSONAS.lookup persona with
  | none => Except.error ("Unknown persona: " ++ persona)
  | some weights =>
      let entries := criteriaEntries weights d
      let weighted_total := (entries.map (fun e => e.2.2 * e.2.1)).sum
      let total_weight := (entries.map (fun e => e.2.1)).sum
      let filled_count := countFilled entries
      let base_100 := if 0 < total_weight then weighted_total / total_weight * 100
        else 30
      let trust := min (max (300 + base_100 / 100 * 600) 300) 900
      let confidence := roundTo 2 (min (max ((filled_count : ℚ) / weights.length)
        (30/100)) (95/100))
      Except.ok
        { persona := persona
          base_score_100 := roundTo 2 base_100
          trust_score := roundTo 0 trust
          grade := if 750 ≤ trust then "Excellent" else if 650 ≤ trust then "Good"
            else if 500 ≤ trust then "Fair" else if 400 ≤ trust then "Poor"
            else "Very Poor"
          confidence := confidence
          criteria_breakdown := entries.map (fun e => (e.1, e.2.2))
          criteria_count := weights.length
          filled_count := filled_count }

theorem score_land_asset_empty : score_land_asset emptyPersonaData = 3/25 := by
  unfold score_land_asset emptyPersonaData
  norm_num [clip01]
  rw [roundTo_eq_of_lt 4 1200 (by norm_num) (by norm_num)]
  norm_num

theorem score_crop_consistency_empty : score_crop_consistency emptyPersonaData = 49/200 := by
  unfold score_crop_consistency emptyPersonaData
  norm_num [clip01]
  simp only [String.reduceEq, reduceIte]
  rw [roundTo_eq_of_lt 4 2450 (by norm_num) (by norm_num)]
  norm_num

theorem score_subsidy_linkage_empty : score_subsidy_linkage emptyPersonaData = 0 := by
  unfold score_subsidy_linkage emptyPersonaData
  norm_num [clip01]
  rw [roundTo_eq_of_lt 4 0 (by norm_num) (by norm_num)]
  norm_num

theorem score_market_engagement_empty : score_market_engagement emptyPersonaData = 0 := by
  unfold score_market_engagement emptyPersonaData
  norm_num [clip01]
  rw [roundTo_eq_of_lt 4 0 (by norm_num) (by norm_num)]
  norm_num

theorem score_academic_performance_empty : score_academic_performance emptyPersonaData = 0 := by
  unfold score_academic_performance emptyPersonaData
  norm_num [clip01]
  rw [roundTo_eq_of_lt 4 0 (by norm_num) (by norm_num)]
  norm_num

theorem score_scholarship_history_empty : score_scholarship_history emptyPersonaData = 0 := by
  unfold score_scholarship_history emptyPersonaData
  norm_num [clip01]
  rw [roundTo_eq_of_lt 4 0 (by norm_num) (by norm_num)]
  norm_num

theorem score_skill_certifications_empty : score_skill_certifications emptyPersonaData = 0 := by
  unfold score_skill_certifications emptyPersonaData
  norm_num [clip01]
  rw [roundTo_eq_of_lt 4 0 (by norm_num) (by norm_num)]
  norm_num

theorem score_attendance_discipline_empty : score_attendance_discipline emptyPersonaData = 0 := by
  unfold score_attendance_discipline emptyPersonaData
  norm_num [clip01]
  rw [roundTo_eq_of_lt 4 0 (by norm_num) (by norm_num)]
  norm_num

theorem score_future_potential_empty : score_future_potential emptyPersonaData = 3/8 := by
  unfold score_future_potential emptyPersonaData
  norm_num [clip01]
  simp only [String.reduceEq, reduceIte]
  rw [roundTo_eq_of_lt 4 3750 (by norm_num) (by norm_num)]
  norm_num

theorem score_daily_income_consistency_empty : score_daily_income_consistency emptyPersonaData = 9/50 := by
  unfold score_daily_income_consistency emptyPersonaData
  norm_num [clip01]
  simp only [String.reduceEq, reduceIte]
  rw [roundTo_eq_of_lt 4 1800 (by norm_num) (by norm_num)]
  norm_num

theorem score_utility_discipline_empty : score_utility_discipline emptyPersonaData = 9/25 := by
  unfold score_utility_discipline emptyPersonaData
  norm_num [clip01]
  rw [roundTo_eq_of_lt 4 3600 (by norm_num) (by norm_num)]
  norm_num

theorem score_savings_habit_empty : score_savings_habit emptyPersonaData = 3/100 := by
  unfold score_savings_habit emptyPersonaData
  norm_num [clip01]
  simp only [String.reduceEq, reduceIte]
  rw [roundTo_eq_of_lt 4 300 (by norm_num) (by norm_num)]
  norm_num

theorem score_community_trust_empty : score_community_trust emptyPersonaData = 0 := by
  unfold score_community_trust emptyPersonaData
  norm_num [clip01]
  rw [roundTo_eq_of_lt 4 0 (by norm_num) (by norm_num)]
  norm_num

theorem score_mobile_behaviour_empty : score_mobile_behaviour emptyPersonaData = 3/25 := by
  unfold score_mobile_behaviour emptyPersonaData
  norm_num [clip01]
  simp only [String.reduceEq, reduceIte]
  rw [roundTo_eq_of_lt 4 1200 (by norm_num) (by norm_num)]
  norm_num

theorem score_years_in_trade_empty : score_years_in_trade emptyPersonaData = 0 := by
  unfold score_years_in_trade emptyPersonaData
  norm_num [clip01]
  rw [roundTo_eq_of_lt 4 0 (by norm_num) (by norm_num)]
  norm_num

theorem score_household_budgeting_empty : score_household_budgeting emptyPersonaData = 13/100 := by
  unfold score_household_budgeting emptyPersonaData
  norm_num [clip01]
  rw [roundTo_eq_of_lt 4 1300 (by norm_num) (by norm_num)]
  norm_num

theorem score_id_verification_empty : score_id_verification emptyPersonaData = 0 := by
  unfold score_id_verification emptyPersonaData
  norm_num [clip01]
  rw [roundTo_eq_of_lt 4 0 (by norm_num) (by norm_num)]
  norm_num

theorem score_psychometric_empty : score_psychometric emptyPersonaData = 1/2 := by
  unfold score_psychometric emptyPersonaData
  norm_num [clip01]
  rw [roundTo_eq_of_lt 4 5000 (by norm_num) (by norm_num)]
  norm_num

theorem score_part_time_income_empty : score_part_time_income emptyPersonaData = 3/10 := by
  unfold score_part_time_income emptyPersonaData
  norm_num

theorem score_rental_discipline_empty : score_rental_discipline emptyPersonaData = 2/5 := by
  unfold score_rental_discipline emptyPersonaData
  norm_num

theorem score_micro_enterprise_empty : score_micro_enterprise emptyPersonaData = 25/100 := by
  unfold score_micro_enterprise emptyPersonaData
  norm_num


/-- `compute_persona_score("farmer", {})` evaluated: every farmer scorer
returns its no-data default, giving trust 373 and confidence 0.30. -/
theorem computePersonaScore_farmer_empty :
    computePersonaScore "farmer" emptyPersonaData = Except.ok
    { persona := "farmer", base_score_100 := 121/10, trust_score := 373,
      grade := "Very Poor", confidence := 3/10,
      criteria_breakdown := [("land_asset", 3/25), ("crop_consistency", 49/200),
        ("subsidy_linkage", 0), ("market_engagement", 0), ("community_trust", 0),
        ("utility_discipline", 9/25), ("mobile_behaviour", 3/25)],
      criteria_count := 7, filled_count := 2 } := by
  have hent : criteriaEntries farmerWeights emptyPersonaData =
    [("land_asset", 20/100, score_land_asset emptyPersonaData),
     ("crop_consistency", 20/100, score_crop_consistency emptyPersonaData),
     ("subsidy_linkage", 15/100, score_subsidy_linkage emptyPersonaData),
     ("market_engagement", 15/100, score_market_engagement emptyPersonaData),
     ("community_trust", 10/100, score_community_trust emptyPersonaData),
     ("utility_discipline", 10/100, score_utility_discipline emptyPersonaData),
     ("mobile_behaviour", 10/100, score_mobile_behaviour emptyPersonaData)] := rfl
  have hlen : farmerWeights.length = 7 := rfl
  have hb : roundTo 2 ((121:ℚ)/10) = 121/10 := by
    rw [roundTo_eq_of_lt 2 1210 (by norm_num) (by norm_num)]; norm_num
  have ht : roundTo 0 ((1863:ℚ)/5) = 373 := by
    rw [roundTo_eq_of_gt 0 372 (by norm_num) (by norm_num)]; norm_num
  have hc : roundTo 2 ((3:ℚ)/10) = 3/10 := by
    rw [roundTo_eq_of_lt 2 30 (by norm_num) (by norm_num)]; norm_num
  unfold computePersonaScore
  rw [show PERSONAS.lookup "farmer" = some farmerWeights from rfl]
  norm_num [hent, score_land_asset_empty, score_crop_consistency_empty,
    score_subsidy_linkage_empty, score_market_engagement_empty,
    score_community_trust_empty, score_utility_discipline_empty,
    score_mobile_behaviour_empty, countFilled, min_def, max_def, hb, ht, hc, hlen]

/-- `compute_persona_score("student", {})` evaluated: base 6.075 rounds
half-to-even up to 6.08, trust 336, confidence 0.30. -/
theorem computePersonaScore_student_empty :
    computePersonaScore "student" emptyPersonaData = Except.ok
    { persona := "student", base_score_100 := 152/25, trust_score := 336,
      grade := "Very Poor", confidence := 3/10,
      criteria_breakdown := [("academic_performance", 0), ("scholarship_history", 0),
        ("skill_certifications", 0), ("attendance_discipline", 0),
        ("part_time_income", 3/10), ("community_trust", 0),
        ("mobile_behaviour", 3/25), ("future_potential", 3/8)],
      criteria_count := 8, filled_count := 2 } := by
  have hent : criteriaEntries studentWeights emptyPersonaData =
    [("academic_performance", 25/100, score_academic_performance emptyPersonaData),
     ("scholarship_history", 15/100, score_scholarship_history emptyPersonaData),
     ("skill_certifications", 15/100, score_skill_certifications emptyPersonaData),
     ("attendance_discipline", 10/100, score_attendance_discipline emptyPersonaData),
     ("part_time_income", 10/100, score_part_time_income emptyPersonaData),
     ("community_trust", 10/100, score_community_trust emptyPersonaData),
     ("mobile_behaviour", 10/100, score_mobile_behaviour emptyPersonaData),
     ("future_potential", 5/100, score_future_potential emptyPersonaData)] := rfl
  have hlen : studentWeights.length = 8 := rfl
  have hb : roundTo 2 ((243:ℚ)/40) = 152/25 := by
    rw [roundTo_eq_of_tie_odd 2 607 (by norm_num) (by norm_num)]; norm_num
  have ht : roundTo 0 ((6729:ℚ)/20) = 336 := by
    rw [roundTo_eq_of_lt 0 336 (by norm_num) (by norm_num)]; norm_num
  have hc : roundTo 2 ((3:ℚ)/10) = 3/10 := by
    rw [roundTo_eq_of_lt 2 30 (by norm_num) (by norm_num)]; norm_num
  unfold computePersonaScore
  rw [show PERSONAS.lookup "student" = some studentWeights from rfl]
  norm_num [hent, score_academic_performance_empty, score_scholarship_history_empty,
    score_skill_certifications_empty, score_attendance_discipline_empty,
    score_part_time_income_empty, score_community_trust_empty,
    score_mobile_behaviour_empty, score_future_potential_empty, countFilled,
    min_def, max_def, hb, ht, hc, hlen]

/-- `compute_persona_score("street_vendor", {})` evaluated: unrounded trust
399.9 grades "Very Poor" while the reported trust_score rounds to 400. -/
theorem computePersonaScore_street_vendor_empty :
    computePersonaScore "street_vendor" emptyPersonaData = Except.ok
    { persona := "street_vendor", base_score_100 := 333/20, trust_score := 400,
      grade := "Very Poor", confidence := 3/10,
      criteria_breakdown := [("daily_income_consistency", 9/50),
        ("rental_discipline", 2/5), ("utility_discipline", 9/25),
        ("savings_habit", 3/100), ("community_trust", 0),
        ("mobile_behaviour", 3/25), ("years_in_trade", 0)],
      criteria_count := 7, filled_count := 2 } := by
  have hent : criteriaEntries streetVendorWeights emptyPersonaData =
    [("daily_income_consistency", 20/100, score_daily_income_consistency emptyPersonaData),
     ("rental_discipline", 15/100, score_rental_discipline emptyPersonaData),
     ("utility_discipline", 15/100, score_utility_discipline emptyPersonaData),
     ("savings_habit", 15/100, score_savings_habit emptyPersonaData),
     ("community_trust", 15/100, score_community_trust emptyPersonaData),
     ("mobile_behaviour", 10/100, score_mobile_behaviour emptyPersonaData),
     ("years_in_trade", 10/100, score_years_in_trade emptyPersonaData)] := rfl
  have hlen : streetVendorWeights.length = 7 := rfl
  have hb : roundTo 2 ((333:ℚ)/20) = 333/20 := by
    rw [roundTo_eq_of_lt 2 1665 (by norm_num) (by norm_num)]; norm_num
  have ht : roundTo 0 ((3999:ℚ)/10) = 400 := by
    rw [roundTo_eq_of_gt 0 399 (by norm_num) (by norm_num)]; norm_num
  have hc : roundTo 2 ((3:ℚ)/10) = 3/10 := by
    rw [roundTo_eq_of_lt 2 30 (by norm_num) (by norm_num)]; norm_num
  unfold computePersonaScore
  rw [show PERSONAS.lookup "street_vendor" = some streetVendorWeights from rfl]
  norm_num [hent, score_daily_income_consistency_empty, score_rental_discipline_empty,
    score_utility_discipline_empty, score_savings_habit_empty,
    score_community_trust_empty, score_mobile_behaviour_empty,
    score_years_in_trade_empty, countFilled, min_def, max_def, hb, ht, hc, hlen]

/-- `compute_persona_score("homemaker", {})` evaluated: trust 374,
confidence 0.30. -/
theorem computePersonaScore_homemaker_empty :
    computePersonaScore "homemaker" emptyPersonaData = Except.ok
    { persona := "homemaker", base_score_100 := 123/10, trust_score := 374,
      grade := "Very Poor", confidence := 3/10,
      criteria_breakdown := [("household_budgeting", 13/100), ("savings_habit", 3/100),
        ("community_trust", 0), ("utility_discipline", 9/25),
        ("micro_enterprise", 1/4), ("mobile_behaviour", 3/25),
        ("skill_certifications", 0)],
      criteria_count := 7, filled_count := 2 } := by
  have hent : criteriaEntries homemakerWeights emptyPersonaData =
    [("household_budgeting", 20/100, score_household_budgeting emptyPersonaData),
     ("savings_habit", 20/100, score_savings_habit emptyPersonaData),
     ("community_trust", 15/100, score_community_trust emptyPersonaData),
     ("utility_discipline", 15/100, score_utility_discipline emptyPersonaData),
     ("micro_enterprise", 10/100, score_micro_enterprise emptyPersonaData),
     ("mobile_behaviour", 10/100, score_mobile_behaviour emptyPersonaData),
     ("skill_certifications", 10/100, score_skill_certifications emptyPersonaData)] := rfl
  have hlen : homemakerWeights.length = 7 := rfl
  have hb : roundTo 2 ((123:ℚ)/10) = 123/10 := by
    rw [roundTo_eq_of_lt 2 1230 (by norm_num) (by norm_num)]; norm_num
  have ht : roundTo 0 ((1869:ℚ)/5) = 374 := by
    rw [roundTo_eq_of_gt 0 373 (by norm_num) (by norm_num)]; norm_num
  have hc : roundTo 2 ((3:ℚ)/10) = 3/10 := by
    rw [roundTo_eq_of_lt 2 30 (by norm_num) (by norm_num)]; norm_num
  unfold computePersonaScore
  rw [show PERSONAS.lookup "homemaker" = some homemakerWeights from rfl]
  norm_num [hent, score_household_budgeting_empty, score_savings_habit_empty,
    score_community_trust_empty, score_utility_discipline_empty,
    score_micro_enterprise_empty, score_mobile_behaviour_empty,
    score_skill_certifications_empty, countFilled, min_def, max_def, hb, ht, hc, hlen]

/-- `compute_persona_score("general_no_bank", {})` evaluated: three scorers
exceed 0.20, so confidence is round(3/7, 2) = 0.43 and trust is 411. -/
theorem computePersonaScore_general_empty :
    computePersonaScore "general_no_bank" emptyPersonaData = Except.ok
    { persona := "general_no_bank", base_score_100 := 371/20, trust_score := 411,
      grade := "Poor", confidence := 43/100,
      criteria_breakdown := [("mobile_behaviour", 3/25), ("utility_discipline", 9/25),
        ("rental_discipline", 2/5), ("community_trust", 0), ("savings_habit", 3/100),
        ("id_verification", 0), ("psychometric", 1/2)],
      criteria_count := 7, filled_count := 3 } := by
  have hent : criteriaEntries generalNoBankWeights emptyPersonaData =
    [("mobile_behaviour", 20/100, score_mobile_behaviour emptyPersonaData),
     ("utility_discipline", 20/100, score_utility_discipline emptyPersonaData),
     ("rental_discipline", 15/100, score_rental_discipline emptyPersonaData),
     ("community_trust", 15/100, score_community_trust emptyPersonaData),
     ("savings_habit", 15/100, score_savings_habit emptyPersonaData),
     ("id_verification", 10/100, score_id_verification emptyPersonaData),
     ("psychometric", 5/100, score_psychometric emptyPersonaData)] := rfl
  have hlen : generalNoBankWeights.length = 7 := rfl
  have hb : roundTo 2 ((371:ℚ)/20) = 371/20 := by
    rw [roundTo_eq_of_lt 2 1855 (by norm_num) (by norm_num)]; norm_num
  have ht : roundTo 0 ((4113:ℚ)/10) = 411 := by
    rw [roundTo_eq_of_lt 0 411 (by norm_num) (by norm_num)]; norm_num
  have hc : roundTo 2 ((3:ℚ)/7) = 43/100 := by
    rw [roundTo_eq_of_gt 2 42 (by norm_num) (by norm_num)]; norm_num
  unfold computePersonaScore
  rw [show PERSONAS.lookup "general_no_bank" = some generalNoBankWeights from rfl]
  norm_num [hent, score_mobile_behaviour_empty, score_utility_discipline_empty,
    score_rental_discipline_empty, score_community_trust_empty,
    score_savings_habit_empty, score_id_verification_empty,
    score_psychometric_empty, countFilled, min_def, max_def, hb, ht, hc, hlen]

/-- C8: for each of the 5 persona keys, `compute_persona_score(persona, {})`
on an empty input dict does not raise (returns `Except.ok`), yields a
trust_score in [300, 900], and a confidence of at least 0.30: every
criterion scorer handles the empty dict by returning a default. -/
theorem c8_persona_empty_safe :
    ∀ p ∈ ["farmer", "student", "street_vendor", "homemaker", "general_no_bank"],
      ∃ r : PersonaScoreResult, computePersonaScore p emptyPersonaData = Except.ok r ∧
        300 ≤ r.trust_score ∧ r.trust_score ≤ 900 ∧ 30/100 ≤ r.confidence := by
  intro p hp
  simp only [List.mem_cons, List.not_mem_nil, or_false] at hp
  rcases hp with rfl | rfl | rfl | rfl | rfl
  · exact ⟨_, computePersonaScore_farmer_empty, by norm_num, by norm_num, by norm_num⟩
  · exact ⟨_, computePersonaScore_student_empty, by norm_num, by norm_num, by norm_num⟩
  · exact ⟨_, computePersonaScore_street_vendor_empty, by norm_num, by norm_num,
      by norm_num⟩
  · exact ⟨_, computePersonaScore_homemaker_empty, by norm_num, by norm_num,
      by norm_num⟩
  · exact ⟨_, computePersonaScore_general_empty, by norm_num, by norm_num, by norm_num⟩

/-- Witness for C8 at the concrete persona "farmer". -/
theorem c8_witness :
    "farmer" ∈ ["farmer", "student", "street_vendor", "homemaker", "general_no_bank"] ∧
    ∃ r : PersonaScoreResult,
      computePersonaScore "farmer" emptyPersonaData = Except.ok r ∧
        300 ≤ r.trust_score ∧ r.trust_score ≤ 900 ∧ 30/100 ≤ r.confidence :=
  ⟨by decide, c8_persona_empty_safe "farmer" (by decide)⟩


/-- `List.lookup` misses every key absent from the association list. -/
theorem lookup_eq_none_of_not_mem {β : Type} (l : List (String × β)) (a : String)
    (h : a ∉ l.map Prod.fst) : l.lookup a = none := by
  induction l with
  | nil => rfl
  | cons e es ih =>
    simp only [List.map_cons, List.mem_cons, not_or] at h
    have hbe : (a == e.1) = false := by simpa using h.1
    simp [List.lookup, hbe, ih h.2]

/-- Collapsing a self-defaulting dictionary fallback. -/
theorem getD_getD_nil {α : Type} (o : Option (List α)) : o.getD (o.getD []) = o.getD [] := by
  cases o <;> rfl

/-- C7 (amended): an unknown loan key makes `check_loan_eligibility` return
the structured LOAN_NOT_FOUND record (for a `transaction` source, and for a
`persona` source whose persona is unknown), and an unknown persona makes
`get_persona_loan_recommendations` fall back to the `general_no_bank`
catalog, returning the same bundle with only the persona label changed; but
`compute_persona_score` raises `ValueError` (modelled as `Except.error`) on
an unknown persona rather than returning a structured result. -/
theorem c7_unknown_keys (persona loan_key : String) (d : PersonaData)
    (pdata : LoanQueryData) (score mi me ee da : ℚ) (dt : ℕ)
    (hp : persona ∉ PERSONAS.map Prod.fst)
    (hpl : persona ∉ PERSONA_LOANS.map Prod.fst)
    (hk : loan_key ∉ TRANSACTION_LOANS.map Prod.fst)
    (hmi : 0 < mi) :
    computePersonaScore persona d = Except.error ("Unknown persona: " ++ persona) ∧
    check_loan_eligibility loan_key "transaction" persona score mi me ee pdata da dt =
      { eligible := false, verdict := "LOAN_NOT_FOUND", loan_name := loan_key,
        reasons_pass := [], reasons_fail := ["loan_not_found"], gap_analysis := [],
        loan_details := none, repayment_capacity := none } ∧
    check_loan_eligibility loan_key "persona" persona score mi me ee pdata da dt =
      { eligible := false, verdict := "LOAN_NOT_FOUND", loan_name := loan_key,
        reasons_pass := [], reasons_fail := ["loan_not_found"], gap_analysis := [],
        loan_details := none, repayment_capacity := none } ∧
    get_persona_loan_recommendations persona score pdata mi =
      { get_persona_loan_recommendations "general_no_bank" score pdata mi with
        persona := persona } := by
  refine ⟨?_, ?_, ?_, ?_⟩
  · unfold computePersonaScore
    rw [lookup_eq_none_of_not_mem _ _ hp]
  · have h1 : lookupLoan "transaction" persona loan_key = none := by
      unfold lookupLoan
      rw [if_pos rfl]
      exact lookup_eq_none_of_not_mem _ _ hk
    unfold check_loan_eligibility
    rw [h1]
  · have h2 : lookupLoan "persona" persona loan_key = none := by
      unfold lookupLoan
      by_cases hpe : persona = ""
      · rw [if_neg (by decide), if_neg (by simp [hpe])]
      · rw [if_neg (by decide), if_pos ⟨rfl, hpe⟩,
          lookup_eq_none_of_not_mem _ _ hpl]
        rfl
    unfold check_loan_eligibility
    rw [h2]
  · have hlk : PERSONA_LOANS.lookup persona = none :=
      lookup_eq_none_of_not_mem _ _ hpl
    have hmi' : ¬ mi ≤ 0 := not_le.mpr hmi
    simp only [get_persona_loan_recommendations]
    rw [hlk, getD_getD_nil]
    simp [hmi']

/-- Witness for C7 at the unknown persona "cyborg" and loan key "unicorn". -/
theorem c7_witness :
    "cyborg" ∉ PERSONAS.map Prod.fst ∧ "cyborg" ∉ PERSONA_LOANS.map Prod.fst ∧
    "unicorn" ∉ TRANSACTION_LOANS.map Prod.fst ∧ (0:ℚ) < 1000 ∧
    (computePersonaScore "cyborg" emptyPersonaData =
        Except.error ("Unknown persona: " ++ "cyborg") ∧
      check_loan_eligibility "unicorn" "transaction" "cyborg" 500 1000 0 0
          emptyQueryData 0 0 =
        { eligible := false, verdict := "LOAN_NOT_FOUND", loan_name := "unicorn",
          reasons_pass := [], reasons_fail := ["loan_not_found"], gap_analysis := [],
          loan_details := none, repayment_capacity := none } ∧
      check_loan_eligibility "unicorn" "persona" "cyborg" 500 1000 0 0
          emptyQueryData 0 0 =
        { eligible := false, verdict := "LOAN_NOT_FOUND", loan_name := "unicorn",
          reasons_pass := [], reasons_fail := ["loan_not_found"], gap_analysis := [],
          loan_details := none, repayment_capacity := none } ∧
      get_persona_loan_recommendations "cyborg" 500 emptyQueryData 1000 =
        { get_persona_loan_recommendations "general_no_bank" 500 emptyQueryData 1000
          with persona := "cyborg" }) :=
  ⟨by decide, by decide, by decide, by norm_num,
   c7_unknown_keys "cyborg" "unicorn" emptyPersonaData emptyQueryData 500 1000 0 0 0 0
     (by decide) (by decide) (by decide) (by norm_num)⟩

/-- C7 counterexample: contrary to the claim that the lookup functions never
raise, `compute_persona_score` raises `ValueError` (modelled as
`Except.error`) on an unknown persona key. -/
theorem c7_counterexample :
    computePersonaScore "cyborg" emptyPersonaData =
      Except.error "Unknown persona: cyborg" := rfl


/-- Witness for C9 at the singleton list containing `plainLoanDetail`. -/
theorem c9_witness :
    (plainLoanDetail, (3:ℚ)/40) ∈ compare_loans [plainLoanDetail] ∧
    ((plainLoanDetail : LoanDetail) ∈ [plainLoanDetail] ∧
      plainLoanDetail.eligible = true ∧
      (3/40 : ℚ) = max 0 (30 - plainLoanDetail.effective_rate) / 30 * (35/100) +
        min (plainLoanDetail.max_loan_amount / 500000) 1 * (30/100) +
        (if plainLoanDetail.subsidy then 1 else 0) * (20/100) +
        (if plainLoanDetail.collateral_required then 0 else 1/2) * (15/100)) := by
  have hmem : (plainLoanDetail, (3:ℚ)/40) ∈ compare_loans [plainLoanDetail] := by
    unfold compare_loans compositeScore plainLoanDetail
    simp only [List.filter, List.map, sortDescBy, insertDescBy, List.foldl, List.take]
    norm_num
  exact ⟨hmem, (c9_compare_loans [plainLoanDetail]).2.1 (plainLoanDetail, 3/40) hmem⟩

end CrediVist
